import Mathlib

/-!
Verification development for the e-commerce cart/pricing/catalog module
(`agent.py`).  The Python source is shallowly embedded: monetary values and
Python floats are modelled as exact rationals (all amounts appearing in the
program are decimal fractions that the float computations reproduce exactly at
the granularity the program observes), Python ints as `Int`/`Nat`, Python
dicts returned by the tool operations as the `PyVal` value type, and the
module-level mutable state (`carrito`, `historial_busquedas`) as an explicit
`EState` threaded through every operation.
-/

/-- Model of the dynamic (JSON-like) Python values returned by the tools. -/
inductive PyVal where
  | s (v : String)
  | r (v : ℚ)
  | z (v : ℤ)
  | b (v : Bool)
  | nil
  | arr (vs : List PyVal)
  | dict (fields : List (String × PyVal))

/-- Dictionary lookup on a `PyVal.dict` (first binding of the key wins). -/
def dictGet : PyVal → String → Option PyVal
  | PyVal.dict fields, k => go fields k
  | _, _ => none
where go : List (String × PyVal) → String → Option PyVal
  | [], _ => none
  | (k1, v) :: rest, k => if k1 = k then some v else go rest k

/-- Two-level dictionary lookup. -/
def dictGetIn (v : PyVal) (k1 k2 : String) : Option PyVal :=
  match dictGet v k1 with
  | some w => dictGet w k2
  | none => none

-- -------------------------
-- Constants (agent.py lines 26-34)
-- -------------------------

def TAX_RATE : ℚ := 8 / 100

def SHIPPING_THRESHOLD : ℚ := 100

def SHIPPING_COST : ℚ := 10

def DISCOUNT_CODES : List (String × ℚ) :=
  [("WELCOME10", 10 / 100), ("SAVE20", 20 / 100), ("VIP30", 30 / 100)]

/-- `code in DISCOUNT_CODES` / `DISCOUNT_CODES[code]`. -/
def codeRate (code : String) : Option ℚ :=
  (DISCOUNT_CODES.find? (fun kv => kv.1 == code)).map (fun kv => kv.2)

-- -------------------------
-- Data models (agent.py lines 40-98)
-- -------------------------

structure Product where
  id : String
  nombre : String
  precio : ℚ
  stock : ℕ
  caracteristicas : List String
  categoria : String
  descripcion : String
  rating : ℚ
  reviews : ℕ
deriving DecidableEq

structure CartItem where
  producto_id : String
  nombre : String
  precio_unitario : ℚ
  cantidad : ℤ
  subtotal : ℚ
deriving DecidableEq

/-- `CartItem(...)` constructor: `__post_init__` sets
`subtotal = precio_unitario * cantidad`. -/
def mkCartItem (producto_id nombre : String) (precio_unitario : ℚ)
    (cantidad : ℤ) : CartItem :=
  ⟨producto_id, nombre, precio_unitario, cantidad, precio_unitario * cantidad⟩

structure Cart where
  items : List CartItem
  discount_code : Option String
deriving DecidableEq

def Cart.get_subtotal (c : Cart) : ℚ :=
  (c.items.map (fun it => it.subtotal)).sum

/-- `if self.discount_code and self.discount_code in DISCOUNT_CODES` — a set
code that is absent from the table (including the falsy empty string, which is
never in the table either) contributes no discount. -/
def Cart.get_discount_amount (c : Cart) : ℚ :=
  match c.discount_code with
  | some code =>
    match codeRate code with
    | some rate => c.get_subtotal * rate
    | none => 0
  | none => 0

def Cart.get_tax (c : Cart) : ℚ :=
  (c.get_subtotal - c.get_discount_amount) * TAX_RATE

def Cart.get_shipping (c : Cart) : ℚ :=
  if SHIPPING_THRESHOLD ≤ c.get_subtotal then 0 else SHIPPING_COST

def Cart.get_total (c : Cart) : ℚ :=
  c.get_subtotal - c.get_discount_amount + c.get_tax + c.get_shipping

-- -------------------------
-- Product catalog (agent.py lines 104-160)
-- -------------------------

def prodLaptop : Product :=
  { id := "LPG001", nombre := "Laptop Gamer Pro", precio := 1500, stock := 10,
    caracteristicas := ["RTX 4070", "32GB RAM", "1TB SSD", "144Hz Display"],
    categoria := "Computadoras",
    descripcion := "Laptop gaming de alta gama para los juegos más exigentes",
    rating := 4.8, reviews := 127 }

def prodTeclado : Product :=
  { id := "TEC005", nombre := "Teclado Mecánico RGB", precio := 120, stock := 25,
    caracteristicas := ["Switches Cherry MX", "RGB personalizable", "TKL", "USB-C"],
    categoria := "Periféricos",
    descripcion := "Teclado mecánico premium con iluminación RGB completa",
    rating := 4.6, reviews := 89 }

def prodMonitor : Product :=
  { id := "MON003", nombre := "Monitor 4K HDR", precio := 400, stock := 5,
    caracteristicas := ["27 pulgadas", "144Hz", "HDR10", "G-Sync Compatible"],
    categoria := "Monitores",
    descripcion := "Monitor gaming 4K con HDR para una experiencia visual inmersiva",
    rating := 4.9, reviews := 203 }

def prodMouse : Product :=
  { id := "MOU002", nombre := "Mouse Gaming Pro", precio := 80, stock := 15,
    caracteristicas := ["16000 DPI", "RGB", "8 botones programables", "Inalámbrico"],
    categoria := "Periféricos",
    descripcion := "Mouse gaming profesional con sensor de alta precisión",
    rating := 4.7, reviews := 156 }

def prodAuriculares : Product :=
  { id := "AUR004", nombre := "Auriculares Gaming 7.1", precio := 150, stock := 8,
    caracteristicas := ["Sonido 7.1 Surround", "Micrófono retráctil", "RGB",
      "Cancelación de ruido"],
    categoria := "Audio",
    descripcion := "Auriculares gaming con sonido envolvente para máxima inmersión",
    rating := 4.5, reviews := 94 }

/-- `PRODUCTOS_DB`: insertion-ordered dict, modelled as an association list. -/
def PRODUCTOS_DB : List (String × Product) :=
  [("laptop gamer pro", prodLaptop),
   ("teclado mecanico rgb", prodTeclado),
   ("monitor 4k hdr", prodMonitor),
   ("mouse gaming pro", prodMouse),
   ("auriculares 7.1", prodAuriculares)]

/-- `list(PRODUCTOS_DB.keys())`. -/
def dbKeys : List String := PRODUCTOS_DB.map (fun kv => kv.1)

/-- `key in PRODUCTOS_DB` / `PRODUCTOS_DB[key]`. -/
def dbLookup (k : String) : Option Product :=
  (PRODUCTOS_DB.find? (fun kv => kv.1 == k)).map (fun kv => kv.2)

-- -------------------------
-- Python string helpers
-- -------------------------

/-- ASCII whitespace stripped by `str.strip()` (the queries and codes the
program compares against are ASCII). -/
def isPySpace (c : Char) : Bool :=
  c == ' ' || c == '\t' || c == '\n' || c == '\r' ||
    c == Char.ofNat 11 || c == Char.ofNat 12

/-- `str.strip()`. -/
def pyStrip (s : String) : String :=
  String.mk (((s.data.dropWhile isPySpace).reverse.dropWhile isPySpace).reverse)

/-- `str.lower()` (ASCII case mapping; the catalog keys are ASCII). -/
def pyLower (s : String) : String := String.mk (s.data.map Char.toLower)

/-- `str.upper()` (ASCII case mapping; the discount codes are ASCII). -/
def pyUpper (s : String) : String := String.mk (s.data.map Char.toUpper)

/-- `nombre.strip().lower()`, the query/key normalization. -/
def pyNormalize (s : String) : String := pyLower (pyStrip s)

-- -------------------------
-- Price formatting (agent.py lines 191-193)
-- -------------------------

/-- Round a rational number of cents-scaled units to an integer, ties to even
(the rounding performed by Python `format` at 2 decimal places). -/
def roundHalfEvenZ (x : ℚ) : ℤ :=
  let n := ⌊x⌋
  let f := x - (n : ℚ)
  if f < 1 / 2 then n
  else if 1 / 2 < f then n + 1
  else if n % 2 = 0 then n else n + 1

/-- Insert thousands separators into the reversed digit list. -/
def groupRev : List Char → List Char
  | d1 :: d2 :: d3 :: d4 :: rest => d1 :: d2 :: d3 :: ',' :: groupRev (d4 :: rest)
  | l => l

/-- Decimal representation of a natural number with thousands separators. -/
def natGrouped (n : ℕ) : String :=
  String.mk ((groupRev (Nat.toDigits 10 n).reverse).reverse)

/-- Render a signed number of cents as `$…,…​.dd`. -/
def formatCents (cents : ℤ) : String :=
  let a := cents.natAbs
  let frac := a % 100
  "$" ++ (if cents < 0 then "-" else "") ++ natGrouped (a / 100) ++ "." ++
    String.mk [Char.ofNat (48 + frac / 10), Char.ofNat (48 + frac % 10)]

/-- `format_price`: `f"${amount:,.2f}"`. -/
def format_price (amount : ℚ) : String :=
  formatCents (roundHalfEvenZ (amount * 100))

/-- `str(q)` for the one-decimal ratings interpolated into messages. -/
def fmt1 (q : ℚ) : String :=
  let t := ⌊q * 10⌋
  let a := t.natAbs
  (if t < 0 then "-" else "") ++ toString (a / 10) ++ "." ++ toString (a % 10)

-- -------------------------
-- difflib.SequenceMatcher model (used by get_close_matches, agent.py line 183)
-- -------------------------

/-- Autojunk of `SequenceMatcher(None, a, b)`: when `len(b) >= 200`, characters
occurring more than `len(b) // 100 + 1` times in `b` are junked. -/
def bJunk (bl : List Char) (c : Char) : Bool :=
  decide (200 ≤ bl.length) && decide (bl.length / 100 + 1 < bl.count c)

/-- `a[i] == b[j]` with both indices in range. -/
def charMatch (a bl : List Char) (i j : ℕ) : Bool :=
  match a.get? i, bl.get? j with
  | some ca, some cb => ca == cb
  | _, _ => false

/-- `a[i] == b[j]` and `b[j]` is not junk (i.e. `j` is present in `b2j`). -/
def matchNJ (a bl : List Char) (jk : Char → Bool) (i j : ℕ) : Bool :=
  match a.get? i, bl.get? j with
  | some ca, some cb => ca == cb && !(jk cb)
  | _, _ => false

/-- `b[j]` exists and is junk. -/
def junkAt (bl : List Char) (jk : Char → Bool) (j : ℕ) : Bool :=
  match bl.get? j with
  | some cb => jk cb
  | none => false

/-- Length of the run of non-junk matches ending at `(i, j)` and staying inside
`[alo, _) × [blo, _)`: the value `j2len[j]` computed by the inner dynamic
program of `find_longest_match`. -/
def endRunLen (a bl : List Char) (jk : Char → Bool) (alo blo : ℕ) :
    ℕ → ℕ → ℕ
  | 0, j => if matchNJ a bl jk 0 j then 1 else 0
  | i + 1, j =>
    if matchNJ a bl jk (i + 1) j then
      if alo ≤ i ∧ blo < j then endRunLen a bl jk alo blo i (j - 1) + 1 else 1
    else 0

/-- The main loop of `find_longest_match`: scan ends `(i, j)` in ascending
lexicographic order keeping the first strictly longer non-junk run, and return
`(besti, bestj, bestsize)` in start form. -/
def flmCore (a bl : List Char) (jk : Char → Bool) (alo ahi blo bhi : ℕ) :
    ℕ × ℕ × ℕ :=
  (List.range (ahi - alo)).foldl
    (fun best di =>
      let i := alo + di
      (List.range (bhi - blo)).foldl
        (fun best dj =>
          let j := blo + dj
          let k := endRunLen a bl jk alo blo i j
          if best.2.2 < k then (i + 1 - k, j + 1 - k, k) else best)
        best)
    (alo, blo, 0)

/-- A fueled while loop over `(besti, bestj, bestsize)` states. -/
def extendLoop (cond : ℕ × ℕ × ℕ → Bool) (step : ℕ × ℕ × ℕ → ℕ × ℕ × ℕ) :
    ℕ → ℕ × ℕ × ℕ → ℕ × ℕ × ℕ
  | 0, st => st
  | f + 1, st => if cond st then extendLoop cond step f (step st) else st

/-- `find_longest_match(alo, ahi, blo, bhi)`: the dynamic program followed by
the four extension while-loops of the source (extend by equal non-junk
elements, then by equal junk elements, on both sides). -/
def findLongestMatch (a bl : List Char) (jk : Char → Bool)
    (alo ahi blo bhi : ℕ) : ℕ × ℕ × ℕ :=
  let fuel := a.length + bl.length + 1
  let best := flmCore a bl jk alo ahi blo bhi
  let best := extendLoop
    (fun st => decide (alo < st.1) && decide (blo < st.2.1) &&
      !(junkAt bl jk (st.2.1 - 1)) && charMatch a bl (st.1 - 1) (st.2.1 - 1))
    (fun st => (st.1 - 1, st.2.1 - 1, st.2.2 + 1)) fuel best
  let best := extendLoop
    (fun st => decide (st.1 + st.2.2 < ahi) && decide (st.2.1 + st.2.2 < bhi) &&
      !(junkAt bl jk (st.2.1 + st.2.2)) && charMatch a bl (st.1 + st.2.2) (st.2.1 + st.2.2))
    (fun st => (st.1, st.2.1, st.2.2 + 1)) fuel best
  let best := extendLoop
    (fun st => decide (alo < st.1) && decide (blo < st.2.1) &&
      junkAt bl jk (st.2.1 - 1) && charMatch a bl (st.1 - 1) (st.2.1 - 1))
    (fun st => (st.1 - 1, st.2.1 - 1, st.2.2 + 1)) fuel best
  let best := extendLoop
    (fun st => decide (st.1 + st.2.2 < ahi) && decide (st.2.1 + st.2.2 < bhi) &&
      junkAt bl jk (st.2.1 + st.2.2) && charMatch a bl (st.1 + st.2.2) (st.2.1 + st.2.2))
    (fun st => (st.1, st.2.1, st.2.2 + 1)) fuel best
  best

/-- Total size of the matching blocks of `get_matching_blocks` (the quantity
`sum(sizes)` entering `ratio()`): recursively split around the longest match.
Each recursive call strictly shrinks the index ranges, so fuel
`len(a) + len(b) + 1` never runs out; merging adjacent blocks, which the
Python code performs afterwards, does not change the total size. -/
def matchTotal (a bl : List Char) (jk : Char → Bool) :
    ℕ → ℕ → ℕ → ℕ → ℕ → ℕ
  | 0, _, _, _, _ => 0
  | fuel + 1, alo, ahi, blo, bhi =>
    let best := findLongestMatch a bl jk alo ahi blo bhi
    let bi := best.1
    let bj := best.2.1
    let bs := best.2.2
    if bs = 0 then 0
    else
      matchTotal a bl jk fuel alo bi blo bj + bs +
        matchTotal a bl jk fuel (bi + bs) ahi (bj + bs) bhi

/-- `SequenceMatcher(None, x, word).ratio()` with `a = x` (a catalog key) and
`b = word` (the normalized query): `2 * M / (len(a) + len(b))`, and 1.0 when
both are empty.  The Python float arithmetic is modelled exactly by rationals:
for the string lengths the program can observe, `2.0 * M / T >= 0.6` agrees
with the exact comparison because the gap `|2M/T - 3/5|`, when nonzero, is at
least `1/(5T)`, far above double rounding error, and `0.6` itself is the
correctly rounded double of `3/5`. -/
def similarity (x word : String) : ℚ :=
  let a := x.data
  let bl := word.data
  if a.length + bl.length = 0 then 1
  else
    (2 * (matchTotal a bl (bJunk bl) (a.length + bl.length + 1)
      0 a.length 0 bl.length) : ℚ) / ((a.length : ℚ) + (bl.length : ℚ))

-- -------------------------
-- Python string comparison (tie-break inside heapq.nlargest)
-- -------------------------

/-- Python `<` on strings: lexicographic by code point. -/
def strLtb : List Char → List Char → Bool
  | [], [] => false
  | [], _ :: _ => true
  | _ :: _, [] => false
  | c :: cs, d :: ds => if c < d then true else if d < c then false else strLtb cs ds

/-- Python tuple comparison `(ratio(y), y) > (ratio(best), best)` used by
`heapq.nlargest` on the scored candidates. -/
def pairGtb (word y best : String) : Bool :=
  decide (similarity best word < similarity y word) ||
    (decide (similarity y word = similarity best word) && strLtb best.data y.data)

/-- `max` over the scored list: fold keeping the strictly greater pair. -/
def pickBest (word : String) (x : String) (xs : List String) : String :=
  xs.foldl (fun best y => if pairGtb word y best then y else best) x

/-- `difflib.get_close_matches(word, possibilities, n=1, cutoff)` returning at
most one match: filter by `ratio >= cutoff` (the `real_quick_ratio` and
`quick_ratio` pre-filters are upper bounds of `ratio` and so drop nothing that
passes the final test), then take the maximum of the `(score, string)` pairs. -/
def getCloseMatches1 (word : String) (possibilities : List String)
    (cutoff : ℚ) : Option String :=
  match possibilities.filter (fun x => decide (cutoff ≤ similarity x word)) with
  | [] => none
  | x :: xs => some (pickBest word x xs)

-- -------------------------
-- find_product_fuzzy (agent.py lines 173-189)
-- -------------------------

def find_product_fuzzy (nombre : String) : Option (String × Product) :=
  let nombre_lower := pyNormalize nombre
  match dbLookup nombre_lower with
  | some p => some (nombre_lower, p)
  | none =>
    match getCloseMatches1 nombre_lower dbKeys (3 / 5) with
    | some m =>
      match dbLookup m with
      | some p => some (m, p)
      | none => none
    | none => none

-- -------------------------
-- Shopping cart state and helpers (agent.py lines 166-200)
-- -------------------------

/-- The module-level mutable state (`carrito`, `historial_busquedas`). -/
structure EState where
  carrito : Cart
  historial : List String
deriving DecidableEq

/-- The state at process start: empty cart, no discount code, no history. -/
def initState : EState := ⟨⟨[], none⟩, []⟩

/-- `get_cart_item_by_product`: first cart item with the given product id. -/
def get_cart_item_by_product (items : List CartItem) (pid : String) :
    Option CartItem :=
  items.find? (fun it => it.producto_id == pid)

/-- In-place mutation of the item found by `get_cart_item_by_product`. -/
def updateFirstItem : List CartItem → String → (CartItem → CartItem) →
    List CartItem
  | [], _, _ => []
  | it :: rest, pid, f =>
    if it.producto_id == pid then f it :: rest
    else it :: updateFirstItem rest pid f

/-- `carrito.items.remove(item)` where `item` is the first item with the given
product id: `list.remove` deletes the first element value-equal to `item`, and
every earlier item has a different product id, hence is not equal to it. -/
def removeFirstItem : List CartItem → String → List CartItem
  | [], _ => []
  | it :: rest, pid =>
    if it.producto_id == pid then rest else it :: removeFirstItem rest pid

/-- `sum(item.cantidad for item in carrito.items)`. -/
def sumQty (items : List CartItem) : ℤ :=
  (items.map (fun it => it.cantidad)).sum

/-- `existing_item.cantidad if existing_item else 0`: quantity of a product
already resident in the cart. -/
def cartQty (items : List CartItem) (pid : String) : ℤ :=
  match get_cart_item_by_product items pid with
  | some it => it.cantidad
  | none => 0

-- -------------------------
-- Tool: buscar_producto_por_nombre (agent.py lines 206-251)
-- -------------------------

def buscar_producto_por_nombre (st : EState) (nombre_producto : String) :
    PyVal × EState :=
  let st1 : EState := { st with historial := st.historial ++ [nombre_producto] }
  match find_product_fuzzy nombre_producto with
  | some (_, producto) =>
    let nm := producto.nombre
    let rt := fmt1 producto.rating
    let rv := producto.reviews
    (PyVal.dict [
      ("status", PyVal.s ("success")),
      ("product", PyVal.dict [
        ("id", PyVal.s producto.id),
        ("nombre", PyVal.s nm),
        ("precio", PyVal.r producto.precio),
        ("precio_formateado", PyVal.s (format_price producto.precio)),
        ("stock", PyVal.z (producto.stock : ℤ)),
        ("características", PyVal.arr (producto.caracteristicas.map PyVal.s)),
        ("categoria", PyVal.s producto.categoria),
        ("descripcion", PyVal.s producto.descripcion),
        ("rating", PyVal.s (s!"⭐ {rt}/5.0 ({rv} reseñas)")),
        ("disponible", PyVal.b (decide (0 < producto.stock)))]),
      ("message", PyVal.s (s!"✅ Producto ’{nm}’ encontrado."))], st1)
  | none =>
    let sugerencias := (PRODUCTOS_DB.take 3).map (fun kv =>
      let nm := kv.2.nombre
      let pr := format_price kv.2.precio
      s!"• {nm} ({pr})")
    (PyVal.dict [
      ("status", PyVal.s ("not_found")),
      ("message", PyVal.s (s!"❌ No encontré ’{nombre_producto}’.")),
      ("sugerencias", PyVal.arr (sugerencias.map PyVal.s)),
      ("sugerencias_text", PyVal.s (("Productos disponibles:\n") ++
        (String.intercalate ("\n") sugerencias)))], st1)

-- -------------------------
-- Tool: agregar_al_carrito (agent.py lines 253-327)
-- -------------------------

/-- `cantidad` is typed `int` here, so the `isinstance` half of the validation
is inherent; the `cantidad <= 0` half is modelled. -/
def agregar_al_carrito (st : EState) (producto : String) (cantidad : ℤ) :
    PyVal × EState :=
  if cantidad ≤ 0 then
    (PyVal.dict [("status", PyVal.s ("error")),
      ("message",
        PyVal.s ("❌ La cantidad debe ser un número entero mayor que cero."))],
     st)
  else
    match find_product_fuzzy producto with
    | none =>
      (PyVal.dict [("status", PyVal.s ("error")),
        ("message", PyVal.s
          (s!"❌ No encontré el producto ’{producto}’. Usa ’buscar_producto’ para ver opciones."))],
       st)
    | some (_, product_info) =>
      let existing_item := get_cart_item_by_product st.carrito.items product_info.id
      let cantidad_actual : ℤ :=
        match existing_item with
        | some it => it.cantidad
        | none => 0
      if (product_info.stock : ℤ) < cantidad_actual + cantidad then
        let disponible : ℤ := (product_info.stock : ℤ) - cantidad_actual
        let nm := product_info.nombre
        (PyVal.dict [("status", PyVal.s ("error")),
          ("message", PyVal.s
            (s!"❌ Stock insuficiente. Solo hay {disponible} unidades disponibles de ’{nm}’.")),
          ("stock_actual", PyVal.z (product_info.stock : ℤ)),
          ("en_carrito", PyVal.z cantidad_actual),
          ("disponible", PyVal.z disponible)], st)
      else
        let items1 :=
          match existing_item with
          | some _ => updateFirstItem st.carrito.items product_info.id (fun it =>
              { it with cantidad := it.cantidad + cantidad,
                        subtotal := it.precio_unitario * ((it.cantidad + cantidad : ℤ) : ℚ) })
          | none => st.carrito.items ++
              [mkCartItem product_info.id product_info.nombre product_info.precio cantidad]
        let carrito1 : Cart := { st.carrito with items := items1 }
        let total_items := sumQty items1
        let subtotal := carrito1.get_subtotal
        let nm := product_info.nombre
        (PyVal.dict [("status", PyVal.s ("success")),
          ("message", PyVal.s (s!"✅ Agregado {cantidad}x ’{nm}’ al carrito.")),
          ("producto_agregado", PyVal.dict [
            ("nombre", PyVal.s nm),
            ("cantidad", PyVal.z cantidad),
            ("precio_unitario", PyVal.s (format_price product_info.precio)),
            ("subtotal", PyVal.s (format_price (product_info.precio * ((cantidad : ℤ) : ℚ))))]),
          ("carrito_resumen", PyVal.dict [
            ("total_items", PyVal.z total_items),
            ("subtotal", PyVal.s (format_price subtotal)),
            ("envio_gratis", PyVal.b (decide (SHIPPING_THRESHOLD ≤ subtotal)))])],
         { st with carrito := carrito1 })

-- -------------------------
-- Tool: ver_carrito (agent.py lines 329-383)
-- -------------------------

def ver_carrito (st : EState) : PyVal × EState :=
  if st.carrito.items.isEmpty then
    (PyVal.dict [("status", PyVal.s ("empty")),
      ("message", PyVal.s ("🛒 El carrito está vacío.")),
      ("sugerencia",
        PyVal.s ("Puedes buscar productos disponibles o pedir recomendaciones."))],
     st)
  else
    let items_detail := st.carrito.items.map (fun item => PyVal.dict [
      ("nombre", PyVal.s item.nombre),
      ("cantidad", PyVal.z item.cantidad),
      ("precio_unitario", PyVal.s (format_price item.precio_unitario)),
      ("subtotal", PyVal.s (format_price item.subtotal))])
    let subtotal := st.carrito.get_subtotal
    let discount := st.carrito.get_discount_amount
    let tax := st.carrito.get_tax
    let shipping := st.carrito.get_shipping
    let total := st.carrito.get_total
    let base := [
      ("status", PyVal.s ("success")),
      ("items", PyVal.arr items_detail),
      ("total_productos", PyVal.z (st.carrito.items.length : ℤ)),
      ("total_unidades", PyVal.z (sumQty st.carrito.items)),
      ("calculos", PyVal.dict [
        ("subtotal", PyVal.s (format_price subtotal)),
        ("descuento",
          if 0 < discount then PyVal.s (format_price discount) else PyVal.nil),
        ("codigo_descuento",
          match st.carrito.discount_code with
          | some c => PyVal.s c
          | none => PyVal.nil),
        ("impuestos", PyVal.s (format_price tax)),
        ("envio", PyVal.s (format_price shipping)),
        ("envio_gratis", PyVal.b (decide (shipping = 0))),
        ("total", PyVal.s (format_price total))])]
    let withAhorro := base ++
      (if 0 < discount then
        [("mensaje_ahorro",
          PyVal.s (let d := format_price discount; s!"¡Estás ahorrando {d}!"))]
      else [])
    let withEnvio := withAhorro ++
      (if shipping = 0 ∧ SHIPPING_THRESHOLD ≤ subtotal then
        [("mensaje_envio", PyVal.s ("¡Envío gratis incluido!"))]
      else [])
    (PyVal.dict withEnvio, st)

-- -------------------------
-- Tool: aplicar_descuento (agent.py lines 385-425)
-- -------------------------

def aplicar_descuento (st : EState) (codigo : String) : PyVal × EState :=
  if st.carrito.items.isEmpty then
    (PyVal.dict [("status", PyVal.s ("error")),
      ("message", PyVal.s
        ("❌ El carrito está vacío. Agrega productos antes de aplicar descuentos."))],
     st)
  else
    let codigo_upper := pyUpper (pyStrip codigo)
    match codeRate codigo_upper with
    | none =>
      (PyVal.dict [("status", PyVal.s ("error")),
        ("message", PyVal.s (s!"❌ Código ’{codigo}’ no válido.")),
        ("codigos_disponibles",
          PyVal.arr ((DISCOUNT_CODES.map (fun kv => kv.1)).map PyVal.s))], st)
    | some descuento_pct =>
      let carrito1 : Cart := { st.carrito with discount_code := some codigo_upper }
      let descuento_amt := carrito1.get_discount_amount
      let pct : ℤ := ⌊descuento_pct * 100⌋
      (PyVal.dict [("status", PyVal.s ("success")),
        ("message",
          PyVal.s (s!"✅ Código ’{codigo_upper}’ aplicado: {pct}% de descuento")),
        ("descuento", PyVal.dict [
          ("porcentaje", PyVal.s (s!"{pct}%")),
          ("monto", PyVal.s (format_price descuento_amt)),
          ("subtotal_original", PyVal.s (format_price carrito1.get_subtotal)),
          ("total_con_descuento", PyVal.s (format_price carrito1.get_total))])],
       { st with carrito := carrito1 })

-- -------------------------
-- Tool: remover_del_carrito (agent.py lines 427-479)
-- -------------------------

def remover_del_carrito (st : EState) (producto : String)
    (cantidad : Option ℤ) : PyVal × EState :=
  match find_product_fuzzy producto with
  | none =>
    (PyVal.dict [("status", PyVal.s ("error")),
      ("message",
        PyVal.s (s!"❌ Producto ’{producto}’ no encontrado en el carrito."))], st)
  | some (_, product_info) =>
    match get_cart_item_by_product st.carrito.items product_info.id with
    | none =>
      let nm := product_info.nombre
      (PyVal.dict [("status", PyVal.s ("error")),
        ("message", PyVal.s (s!"❌ ’{nm}’ no está en el carrito."))], st)
    | some item =>
      let nm := product_info.nombre
      let fullRemove : PyVal × EState :=
        (PyVal.dict [("status", PyVal.s ("success")),
          ("message", PyVal.s (s!"✅ Removido completamente ’{nm}’ del carrito.")),
          ("producto_removido", PyVal.s nm),
          ("cantidad_removida", PyVal.z item.cantidad)],
         { st with carrito := { st.carrito with
             items := removeFirstItem st.carrito.items product_info.id } })
      match cantidad with
      | none => fullRemove
      | some c =>
        if item.cantidad ≤ c then fullRemove
        else if 0 < c then
          (PyVal.dict [("status", PyVal.s ("success")),
            ("message", PyVal.s (s!"✅ Removidas {c} unidades de ’{nm}’.")),
            ("cantidad_removida", PyVal.z c),
            ("cantidad_restante", PyVal.z (item.cantidad - c))],
           { st with carrito := { st.carrito with
               items := updateFirstItem st.carrito.items product_info.id (fun it =>
                 { it with cantidad := it.cantidad - c,
                           subtotal := it.precio_unitario * ((it.cantidad - c : ℤ) : ℚ) }) } })
        else
          (PyVal.dict [("status", PyVal.s ("error")),
            ("message", PyVal.s ("❌ La cantidad debe ser mayor que cero."))], st)

-- -------------------------
-- Tool: vaciar_carrito (agent.py lines 481-501)
-- -------------------------

def vaciar_carrito (st : EState) : PyVal × EState :=
  (PyVal.dict [("status", PyVal.s ("success")),
    ("message", PyVal.s ("🧹 Carrito vaciado correctamente.")),
    ("productos_removidos", PyVal.z (st.carrito.items.length : ℤ)),
    ("unidades_removidas", PyVal.z (sumQty st.carrito.items))],
   { st with carrito := { items := [], discount_code := none } })

-- -------------------------
-- Tool: calcular_total (agent.py lines 503-569)
-- -------------------------

def calcular_total (st : EState) : PyVal × EState :=
  if st.carrito.items.isEmpty then
    (PyVal.dict [("status", PyVal.s ("empty")),
      ("message", PyVal.s ("El carrito está vacío.")),
      ("total", PyVal.s (format_price 0))], st)
  else
    let subtotal := st.carrito.get_subtotal
    let discount := st.carrito.get_discount_amount
    let tax := st.carrito.get_tax
    let shipping := st.carrito.get_shipping
    let total := st.carrito.get_total
    let resumen := st.carrito.items.map (fun item => PyVal.dict [
      ("producto", PyVal.s item.nombre),
      ("cantidad", PyVal.z item.cantidad),
      ("precio_unitario", PyVal.s (format_price item.precio_unitario)),
      ("subtotal", PyVal.s (format_price item.subtotal))])
    let tasa : ℤ := ⌊TAX_RATE * 100⌋
    let base := [
      ("status", PyVal.s ("success")),
      ("resumen_productos", PyVal.arr resumen),
      ("subtotal", PyVal.s (format_price subtotal)),
      ("descuento",
        if 0 < discount then
          PyVal.dict [
            ("codigo",
              match st.carrito.discount_code with
              | some c => PyVal.s c
              | none => PyVal.nil),
            ("monto", PyVal.s (format_price discount))]
        else PyVal.nil),
      ("impuestos", PyVal.dict [
        ("tasa", PyVal.s (s!"{tasa}%")),
        ("monto", PyVal.s (format_price tax))]),
      ("envio", PyVal.dict [
        ("costo", PyVal.s (format_price shipping)),
        ("gratis", PyVal.b (decide (shipping = 0))),
        ("umbral_gratis", PyVal.s (format_price SHIPPING_THRESHOLD))]),
      ("total", PyVal.s (format_price total)),
      ("mensaje", PyVal.s (let t := format_price total; s!"💳 Total a pagar: {t}"))]
    let ahorros :=
      (if 0 < discount then
        [(let d := format_price discount; s!"Descuento: {d}")]
      else []) ++
      (if shipping = 0 then
        [(let e := format_price SHIPPING_COST; s!"Envío gratis: {e}")]
      else [])
    let final :=
      if ahorros.isEmpty then base
      else base ++
        [("ahorros_totales", PyVal.dict [
          ("items", PyVal.arr (ahorros.map PyVal.s)),
          ("total", PyVal.s (format_price
            (discount + (if shipping = 0 then SHIPPING_COST else 0))))])]
    (PyVal.dict final, st)

-- -------------------------
-- Tool: recomendar_productos (agent.py lines 571-614)
-- -------------------------

/-- `(p.rating, p.reviews) > (q.rating, q.reviews)` as tuples. -/
def keyGtb (p q : Product) : Bool :=
  decide (q.rating < p.rating) ||
    (decide (p.rating = q.rating) && decide (q.reviews < p.reviews))

/-- Stable insertion keeping strictly greater keys in front. -/
def insertDesc (x : Product) : List Product → List Product
  | [] => [x]
  | y :: ys => if keyGtb y x then y :: insertDesc x ys else x :: y :: ys

/-- `productos.sort(key=lambda p: (p.rating, p.reviews), reverse=True)`:
a stable descending sort (ties keep their original relative order, as with
Python list.sort). -/
def sortDesc : List Product → List Product
  | [] => []
  | x :: xs => insertDesc x (sortDesc xs)

/-- `list(set(...))` over the category names: Python set iteration order is
hash-dependent; modelled as first-occurrence order (only the presence and the
status/message structure of this payload are observed by the claims). -/
def dedupFirst (l : List String) : List String :=
  l.foldl (fun acc x => if x ∈ acc then acc else acc ++ [x]) []

/-- Build the success payload of `recomendar_productos` from the (possibly
filtered) product list. -/
def recomendacionesFor (productos : List Product) (categoria : Option String) :
    PyVal :=
  let recs := (sortDesc productos).take 3 |>.map (fun p => PyVal.dict [
    ("nombre", PyVal.s p.nombre),
    ("precio", PyVal.s (format_price p.precio)),
    ("rating", PyVal.s (let rt := fmt1 p.rating; s!"⭐ {rt}/5.0")),
    ("categoria", PyVal.s p.categoria),
    ("descripcion", PyVal.s p.descripcion),
    ("disponible", PyVal.b (decide (0 < p.stock)))])
  let n := recs.length
  PyVal.dict [
    ("status", PyVal.s ("success")),
    ("categoria", PyVal.s
      (match categoria with
       | some c => if c.isEmpty then "Todas" else c
       | none => "Todas")),
    ("recomendaciones", PyVal.arr recs),
    ("mensaje", PyVal.s (s!"🌟 Top {n} productos recomendados"))]

/-- `if categoria:` is falsy both for `None` and for the empty string. -/
def recomendar_productos (st : EState) (categoria : Option String) :
    PyVal × EState :=
  let productos := PRODUCTOS_DB.map (fun kv => kv.2)
  match categoria with
  | some c =>
    if c.isEmpty then (recomendacionesFor productos categoria, st)
    else
      let productos2 := productos.filter (fun p => pyLower p.categoria == pyLower c)
      if productos2.isEmpty then
        (PyVal.dict [("status", PyVal.s ("error")),
          ("message", PyVal.s (s!"No hay productos en la categoría ’{c}’.")),
          ("categorias_disponibles", PyVal.arr
            ((dedupFirst (productos.map (fun p => p.categoria))).map PyVal.s))],
         st)
      else (recomendacionesFor productos2 categoria, st)
  | none => (recomendacionesFor productos categoria, st)

-- -------------------------
-- Tool: mostrar_historial_busquedas (agent.py lines 616-633)
-- -------------------------

def mostrar_historial_busquedas (st : EState) : PyVal × EState :=
  if st.historial.isEmpty then
    (PyVal.dict [("status", PyVal.s ("empty")),
      ("message", PyVal.s ("No hay búsquedas recientes."))], st)
  else
    (PyVal.dict [("status", PyVal.s ("success")),
      ("historial",
        PyVal.arr ((st.historial.drop (st.historial.length - 5)).map PyVal.s)),
      ("total_busquedas", PyVal.z (st.historial.length : ℤ))], st)

-- -------------------------
-- The nine operations as a transition system
-- -------------------------

inductive ToolOp where
  | buscar (nombre : String)
  | agregar (producto : String) (cantidad : ℤ)
  | ver
  | aplicar (codigo : String)
  | remover (producto : String) (cantidad : Option ℤ)
  | vaciar
  | calcular
  | recomendar (categoria : Option String)
  | historial

def runOp (st : EState) : ToolOp → PyVal × EState
  | ToolOp.buscar n => buscar_producto_por_nombre st n
  | ToolOp.agregar p c => agregar_al_carrito st p c
  | ToolOp.ver => ver_carrito st
  | ToolOp.aplicar c => aplicar_descuento st c
  | ToolOp.remover p c => remover_del_carrito st p c
  | ToolOp.vaciar => vaciar_carrito st
  | ToolOp.calcular => calcular_total st
  | ToolOp.recomendar c => recomendar_productos st c
  | ToolOp.historial => mostrar_historial_busquedas st

def applyOp (st : EState) (op : ToolOp) : EState := (runOp st op).2

/-- The cart data invariant: positive quantities, consistent line subtotals,
one line per product identifier, and line quantity within the stock of any
catalog product bearing that identifier. -/
def CartInv (c : Cart) : Prop :=
  (∀ it ∈ c.items, 0 < it.cantidad ∧
      it.subtotal = it.precio_unitario * (it.cantidad : ℚ) ∧
      ∀ kv ∈ PRODUCTOS_DB, kv.2.id = it.producto_id →
        it.cantidad ≤ (kv.2.stock : ℤ)) ∧
  (c.items.map (fun it => it.producto_id)).Nodup

/-- The state reached from process start by adding 2 × "Mouse Gaming Pro". -/
def c2state : EState := (agregar_al_carrito initState ("Mouse Gaming Pro") 2).2

-- -------------------------
-- Helper lemmas: Python string order
-- -------------------------

theorem strLtb_irrefl (x : List Char) : strLtb x x = false := by
  induction x with
  | nil => rfl
  | cons c cs ih => simp [strLtb, ih]

theorem strLtb_asymm {x y : List Char} (h : strLtb x y = true) :
    strLtb y x = false := by
  induction x generalizing y with
  | nil =>
    cases y with
    | nil => simp [strLtb] at h
    | cons d ds => simp [strLtb]
  | cons c cs ih =>
    cases y with
    | nil => simp [strLtb] at h
    | cons d ds =>
      simp only [strLtb] at h ⊢
      rcases lt_trichotomy c d with hcd | hcd | hcd
      · simp [hcd, not_lt.mpr (le_of_lt hcd)]
      · subst hcd
        simp only [lt_irrefl, if_false] at h ⊢
        exact ih h
      · simp [hcd, not_lt.mpr (le_of_lt hcd)] at h

theorem strLtb_total {x y : List Char} (h1 : strLtb x y = false)
    (h2 : strLtb y x = false) : x = y := by
  induction x generalizing y with
  | nil =>
    cases y with
    | nil => rfl
    | cons d ds => simp [strLtb] at h1
  | cons c cs ih =>
    cases y with
    | nil => simp [strLtb] at h2
    | cons d ds =>
      simp only [strLtb] at h1 h2
      rcases lt_trichotomy c d with hcd | hcd | hcd
      · simp [hcd] at h1
      · subst hcd
        simp only [lt_irrefl, if_false] at h1 h2
        rw [ih h1 h2]
      · simp [hcd] at h2

theorem strLtb_trans {x y z : List Char} (h1 : strLtb x y = true)
    (h2 : strLtb y z = true) : strLtb x z = true := by
  induction x generalizing y z with
  | nil =>
    cases z with
    | nil =>
      cases y with
      | nil => exact h1
      | cons d ds => simp [strLtb] at h2
    | cons e es => simp [strLtb]
  | cons c cs ih =>
    cases y with
    | nil => simp [strLtb] at h1
    | cons d ds =>
      cases z with
      | nil => simp [strLtb] at h2
      | cons e es =>
        simp only [strLtb] at h1 h2 ⊢
        rcases lt_trichotomy c d with hcd | hcd | hcd
        · rcases lt_trichotomy d e with hde | hde | hde
          · simp [lt_trans hcd hde]
          · subst hde; simp [hcd]
          · simp [hde, not_lt.mpr (le_of_lt hde)] at h2
        · subst hcd
          rcases lt_trichotomy c e with hce | hce | hce
          · simp [hce]
          · subst hce
            simp only [lt_irrefl, if_false] at h1 h2 ⊢
            exact ih h1 h2
          · simp [hce, not_lt.mpr (le_of_lt hce)] at h2
        · simp [hcd, not_lt.mpr (le_of_lt hcd)] at h1

-- -------------------------
-- Helper lemmas: the (score, string) tuple order of nlargest
-- -------------------------

theorem pairOrder_trans {w y b b2 : String}
    (h1 : similarity y w < similarity b w ∨
      (similarity y w = similarity b w ∧ (y = b ∨ strLtb y.data b.data = true)))
    (h2 : similarity b w < similarity b2 w ∨
      (similarity b w = similarity b2 w ∧ (b = b2 ∨ strLtb b.data b2.data = true))) :
    similarity y w < similarity b2 w ∨
      (similarity y w = similarity b2 w ∧
        (y = b2 ∨ strLtb y.data b2.data = true)) := by
  rcases h1 with h1 | ⟨h1e, h1s⟩
  · rcases h2 with h2 | ⟨h2e, _⟩
    · exact Or.inl (lt_trans h1 h2)
    · exact Or.inl (h2e ▸ h1)
  · rcases h2 with h2 | ⟨h2e, h2s⟩
    · exact Or.inl (h1e ▸ h2)
    · refine Or.inr ⟨h1e.trans h2e, ?_⟩
      rcases h1s with rfl | h1s
      · exact h2s
      · rcases h2s with rfl | h2s
        · exact Or.inr h1s
        · exact Or.inr (strLtb_trans h1s h2s)

theorem string_eq_of_data_eq {x y : String} (h : x.data = y.data) : x = y :=
  String.ext h

theorem pairLe_of_not_gtb {w z b : String} (h : pairGtb w z b = false) :
    similarity z w < similarity b w ∨
      (similarity z w = similarity b w ∧ (z = b ∨ strLtb z.data b.data = true)) := by
  unfold pairGtb at h
  simp only [Bool.or_eq_false_iff, Bool.and_eq_false_iff,
    decide_eq_false_iff_not] at h
  obtain ⟨hlt, hor⟩ := h
  rcases lt_or_eq_of_le (not_lt.mp hlt) with hlt2 | heq
  · exact Or.inl hlt2
  · refine Or.inr ⟨heq, ?_⟩
    rcases hor with hne | hns
    · exact absurd heq hne
    · cases hsz : strLtb z.data b.data with
      | true => exact Or.inr rfl
      | false => exact Or.inl (string_eq_of_data_eq (strLtb_total hsz hns))

theorem pairLe_of_gtb {w z b : String} (h : pairGtb w z b = true) :
    similarity b w < similarity z w ∨
      (similarity b w = similarity z w ∧ (b = z ∨ strLtb b.data z.data = true)) := by
  unfold pairGtb at h
  simp only [Bool.or_eq_true, Bool.and_eq_true, decide_eq_true_eq] at h
  rcases h with h | ⟨he, hs⟩
  · exact Or.inl h
  · exact Or.inr ⟨he.symm, Or.inr hs⟩

theorem pickBest_spec (w : String) (xs : List String) : ∀ x : String,
    pickBest w x xs ∈ x :: xs ∧
    ∀ y ∈ x :: xs,
      similarity y w < similarity (pickBest w x xs) w ∨
      (similarity y w = similarity (pickBest w x xs) w ∧
        (y = pickBest w x xs ∨ strLtb y.data (pickBest w x xs).data = true)) := by
  induction xs with
  | nil =>
    intro x
    refine ⟨by simp [pickBest], ?_⟩
    intro y hy
    rcases List.mem_singleton.mp hy with rfl
    exact Or.inr ⟨rfl, Or.inl rfl⟩
  | cons z rest ih =>
    intro x
    have step : pickBest w x (z :: rest) =
        pickBest w (if pairGtb w z x then z else x) rest := rfl
    cases hzx : pairGtb w z x with
    | true =>
      rw [step, hzx]
      simp only [if_true]
      refine ⟨?_, ?_⟩
      · exact List.mem_cons_of_mem x (ih z).1
      · intro y hy
        rcases List.mem_cons.mp hy with rfl | hy2
        · exact pairOrder_trans (pairLe_of_gtb hzx)
            ((ih z).2 z (List.mem_cons_self z rest))
        · exact (ih z).2 y hy2
    | false =>
      rw [step, hzx]
      simp only [Bool.false_eq_true, if_false]
      refine ⟨?_, ?_⟩
      · rcases List.mem_cons.mp (ih x).1 with h | h
        · rw [h]; exact List.mem_cons_self x (z :: rest)
        · exact List.mem_cons_of_mem x (List.mem_cons_of_mem z h)
      · intro y hy
        rcases List.mem_cons.mp hy with h | hy2
        · subst h
          exact (ih y).2 y (List.mem_cons_self y rest)
        · rcases List.mem_cons.mp hy2 with h | hy3
          · subst h
            exact pairOrder_trans (pairLe_of_not_gtb hzx)
              ((ih x).2 x (List.mem_cons_self x rest))
          · exact (ih x).2 y (List.mem_cons_of_mem x hy3)

-- -------------------------
-- Helper lemmas: get_close_matches
-- -------------------------

theorem gcm_eq_none_iff (w : String) (poss : List String) (c : ℚ) :
    getCloseMatches1 w poss c = none ↔ ∀ x ∈ poss, similarity x w < c := by
  unfold getCloseMatches1
  cases hf : poss.filter (fun x => decide (c ≤ similarity x w)) with
  | nil =>
    apply iff_of_true rfl
    intro x hx
    by_contra hge
    have hmem : x ∈ poss.filter (fun x => decide (c ≤ similarity x w)) :=
      List.mem_filter.mpr ⟨hx, by simpa using not_lt.mp hge⟩
    rw [hf] at hmem
    cases hmem
  | cons x xs =>
    have hmem : x ∈ poss.filter (fun x => decide (c ≤ similarity x w)) := by
      rw [hf]; exact List.mem_cons_self x xs
    have hmf := List.mem_filter.mp hmem
    apply iff_of_false
    · intro hcontra; cases hcontra
    · intro hall
      exact absurd (hall x hmf.1) (not_lt.mpr (by simpa using hmf.2))

theorem gcm_eq_some (w : String) (poss : List String) (c : ℚ) (m : String)
    (h : getCloseMatches1 w poss c = some m) :
    m ∈ poss ∧ c ≤ similarity m w ∧
      ∀ y ∈ poss, c ≤ similarity y w →
        similarity y w < similarity m w ∨
        (similarity y w = similarity m w ∧
          (y = m ∨ strLtb y.data m.data = true)) := by
  unfold getCloseMatches1 at h
  cases hf : poss.filter (fun x => decide (c ≤ similarity x w)) with
  | nil => rw [hf] at h; cases h
  | cons x xs =>
    rw [hf] at h
    injection h with h
    subst h
    have hspec := pickBest_spec w xs x
    have hmemf : pickBest w x xs ∈ poss.filter (fun x => decide (c ≤ similarity x w)) := by
      rw [hf]; exact hspec.1
    have hmf := List.mem_filter.mp hmemf
    refine ⟨hmf.1, by simpa using hmf.2, ?_⟩
    intro y hy hcy
    have hyf : y ∈ poss.filter (fun x => decide (c ≤ similarity x w)) :=
      List.mem_filter.mpr ⟨hy, by simpa using hcy⟩
    rw [hf] at hyf
    exact hspec.2 y hyf

-- -------------------------
-- Helper lemmas: catalog lookups and the fuzzy resolver
-- -------------------------

theorem dbLookup_mem {k : String} {p : Product} (h : dbLookup k = some p) :
    (k, p) ∈ PRODUCTOS_DB := by
  unfold dbLookup at h
  cases hf : PRODUCTOS_DB.find? (fun kv => kv.1 == k) with
  | none => rw [hf] at h; cases h
  | some kv =>
    rw [hf] at h
    have hk : kv.1 = k := by simpa using List.find?_some hf
    have hp : kv.2 = p := by simpa using h
    have hm := List.mem_of_find?_eq_some hf
    rw [← hk, ← hp]
    simpa using hm

theorem mem_dbKeys_of_lookup {k : String} {p : Product}
    (h : dbLookup k = some p) : k ∈ dbKeys := by
  have := dbLookup_mem h
  exact List.mem_map.mpr ⟨(k, p), this, rfl⟩

theorem dbKeys_lookup {k : String} (h : k ∈ dbKeys) :
    ∃ p, dbLookup k = some p := by
  simp only [dbKeys, PRODUCTOS_DB, List.map, List.mem_cons,
    List.not_mem_nil, or_false] at h
  rcases h with rfl | rfl | rfl | rfl | rfl
  · exact ⟨prodLaptop, rfl⟩
  · exact ⟨prodTeclado, rfl⟩
  · exact ⟨prodMonitor, rfl⟩
  · exact ⟨prodMouse, rfl⟩
  · exact ⟨prodAuriculares, rfl⟩

/-- Identifiers are unique across the catalog, so two entries with the same
identifier carry the same stock. -/
theorem db_id_unique : ∀ kv ∈ PRODUCTOS_DB, ∀ kv2 ∈ PRODUCTOS_DB,
    kv.2.id = kv2.2.id → kv.2.stock = kv2.2.stock := by decide

/-- Whatever the resolver returns is a catalog entry. -/
theorem find_product_fuzzy_mem {s k : String} {p : Product}
    (h : find_product_fuzzy s = some (k, p)) : (k, p) ∈ PRODUCTOS_DB := by
  cases h1 : dbLookup (pyNormalize s) with
  | some q =>
    simp only [find_product_fuzzy, h1, Option.some.injEq, Prod.mk.injEq] at h
    obtain ⟨hk, hp⟩ := h
    subst hk; subst hp
    exact dbLookup_mem h1
  | none =>
    simp only [find_product_fuzzy, h1] at h
    cases h2 : getCloseMatches1 (pyNormalize s) dbKeys (3 / 5) with
    | none => simp only [h2] at h; cases h
    | some m =>
      simp only [h2] at h
      cases h3 : dbLookup m with
      | none => simp only [h3] at h; cases h
      | some q =>
        simp only [h3, Option.some.injEq, Prod.mk.injEq] at h
        obtain ⟨hk, hp⟩ := h
        subst hk; subst hp
        exact dbLookup_mem h3

-- -------------------------
-- Helper lemmas: cart list operations
-- -------------------------

theorem updateFirstItem_map_id (l : List CartItem) (pid : String)
    (f : CartItem → CartItem) (hf : ∀ it, (f it).producto_id = it.producto_id) :
    (updateFirstItem l pid f).map (fun it => it.producto_id) =
      l.map (fun it => it.producto_id) := by
  induction l with
  | nil => rfl
  | cons it rest ih =>
    unfold updateFirstItem
    cases h : it.producto_id == pid with
    | true => simp [hf it]
    | false => simp [ih]

theorem forall_updateFirstItem {P : CartItem → Prop} {l : List CartItem}
    {pid : String} {f : CartItem → CartItem}
    (hl : ∀ x ∈ l, P x)
    (hf : ∀ it, get_cart_item_by_product l pid = some it → P (f it)) :
    ∀ x ∈ updateFirstItem l pid f, P x := by
  induction l with
  | nil => intro x hx; cases hx
  | cons it rest ih =>
    intro x hx
    unfold updateFirstItem at hx
    cases h : it.producto_id == pid with
    | true =>
      rw [h] at hx
      simp only [if_true] at hx
      rcases List.mem_cons.mp hx with h2 | h2
      · subst h2
        apply hf
        unfold get_cart_item_by_product
        simp [List.find?, h]
      · exact hl x (List.mem_cons_of_mem it h2)
    | false =>
      rw [h] at hx
      simp only [Bool.false_eq_true, if_false] at hx
      rcases List.mem_cons.mp hx with h2 | h2
      · subst h2
        exact hl x (List.mem_cons_self x rest)
      · refine ih (fun y hy => hl y (List.mem_cons_of_mem it hy)) ?_ x h2
        intro it2 hit2
        apply hf
        unfold get_cart_item_by_product at hit2 ⊢
        simp [List.find?, h, hit2]

theorem removeFirstItem_sublist (l : List CartItem) (pid : String) :
    (removeFirstItem l pid).Sublist l := by
  induction l with
  | nil => exact List.Sublist.refl []
  | cons it rest ih =>
    unfold removeFirstItem
    cases h : it.producto_id == pid with
    | true => simp only [if_true]; exact List.sublist_cons_self it rest
    | false => simpa using List.Sublist.cons₂ it ih

theorem find?_cart_id {l : List CartItem} {pid : String} {it : CartItem}
    (h : get_cart_item_by_product l pid = some it) :
    it ∈ l ∧ it.producto_id = pid := by
  unfold get_cart_item_by_product at h
  exact ⟨List.mem_of_find?_eq_some h, by simpa using List.find?_some h⟩

theorem find?_cart_none {l : List CartItem} {pid : String}
    (h : get_cart_item_by_product l pid = none) :
    ∀ it ∈ l, it.producto_id ≠ pid := by
  unfold get_cart_item_by_product at h
  intro it hit
  have := List.find?_eq_none.mp h it hit
  simpa using this

-- -------------------------
-- Helper lemmas: price formatting on exact cent amounts
-- -------------------------

theorem roundHalfEvenZ_intCast (n : ℤ) : roundHalfEvenZ ((n : ℚ)) = n := by
  simp only [roundHalfEvenZ, Int.floor_intCast, sub_self]
  rw [if_pos (by norm_num)]

theorem format_price_intCast (amount : ℚ) (n : ℤ)
    (h : amount * 100 = (n : ℚ)) : format_price amount = formatCents n := by
  unfold format_price
  rw [h, roundHalfEvenZ_intCast]

-- -------------------------
-- Claim theorems
-- -------------------------

/-- Claim C1: for every cart state, `total()` returns
`subtotal − discount + tax + shipping`, where the discount is
`subtotal × rate(code)` when a valid code is set (else 0), tax is 8% of the
post-discount subtotal, and shipping is 0 exactly when the pre-discount
subtotal reaches the 100 threshold (else 10). -/
theorem cart_total_formula (c : Cart) :
    c.get_total =
      c.get_subtotal - c.get_discount_amount + c.get_tax + c.get_shipping
    ∧ c.get_tax = (c.get_subtotal - c.get_discount_amount) * (8 / 100)
    ∧ c.get_shipping = (if (100 : ℚ) ≤ c.get_subtotal then 0 else 10)
    ∧ (∀ code rate, c.discount_code = some code → codeRate code = some rate →
        c.get_discount_amount = c.get_subtotal * rate)
    ∧ (∀ code, c.discount_code = some code → codeRate code = none →
        c.get_discount_amount = 0)
    ∧ (c.discount_code = none → c.get_discount_amount = 0) := by
  refine ⟨rfl, rfl, rfl, ?_, ?_, ?_⟩
  · intro code rate h1 h2
    simp [Cart.get_discount_amount, h1, h2]
  · intro code h1 h2
    simp [Cart.get_discount_amount, h1, h2]
  · intro h1
    simp [Cart.get_discount_amount, h1]

/-- Witness for C1 at a concrete cart with a valid code applied. -/
theorem cart_total_formula_witness :
    (Cart.mk [mkCartItem ("MOU002") ("Mouse Gaming Pro") 80 2]
        (some ("WELCOME10"))).get_discount_amount =
      (Cart.mk [mkCartItem ("MOU002") ("Mouse Gaming Pro") 80 2]
        (some ("WELCOME10"))).get_subtotal * (10 / 100) :=
  (cart_total_formula _).2.2.2.1 ("WELCOME10") (10 / 100) rfl rfl

/-- Claim C2 (counterexample): after adding 2 × "Mouse Gaming Pro" (unit price
80) to the empty cart, `ver_carrito` reports shipping `$0.00` — not the
`$10.00` the claim states — and total `$172.80`, not `$182.80`: the subtotal
160 is above, not below, the free-shipping threshold 100. -/
theorem mouse_scenario_spec_false :
    dictGetIn (ver_carrito c2state).1 ("calculos") ("envio") =
      some (PyVal.s ("$0.00"))
    ∧ ¬ dictGetIn (ver_carrito c2state).1 ("calculos") ("envio") =
      some (PyVal.s ("$10.00"))
    ∧ dictGetIn (ver_carrito c2state).1 ("calculos") ("total") =
      some (PyVal.s ("$172.80"))
    ∧ ¬ dictGetIn (ver_carrito c2state).1 ("calculos") ("total") =
      some (PyVal.s ("$182.80")) := by
  have hsub : c2state.carrito.get_subtotal = 160 := by
    show (80 : ℚ) * ((2 : ℤ) : ℚ) + 0 = 160
    norm_num
  have hdisc : c2state.carrito.get_discount_amount = 0 := rfl
  have hship : c2state.carrito.get_shipping = 0 := by
    rw [Cart.get_shipping, hsub, SHIPPING_THRESHOLD]
    rw [if_pos (by norm_num)]
  have htax : c2state.carrito.get_tax = 64 / 5 := by
    rw [Cart.get_tax, hsub, hdisc, TAX_RATE]
    norm_num
  have htot : c2state.carrito.get_total = 864 / 5 := by
    rw [Cart.get_total, hsub, hdisc, htax, hship]
    norm_num
  have hv1 : dictGetIn (ver_carrito c2state).1 ("calculos") ("envio") =
      some (PyVal.s (format_price c2state.carrito.get_shipping)) := rfl
  have hv2 : dictGetIn (ver_carrito c2state).1 ("calculos") ("total") =
      some (PyVal.s (format_price c2state.carrito.get_total)) := rfl
  have h1 : dictGetIn (ver_carrito c2state).1 ("calculos") ("envio") =
      some (PyVal.s ("$0.00")) := by
    rw [hv1, hship, format_price_intCast 0 0 (by norm_num)]
    rfl
  have h2 : dictGetIn (ver_carrito c2state).1 ("calculos") ("total") =
      some (PyVal.s ("$172.80")) := by
    rw [hv2, htot, format_price_intCast (864 / 5) 17280 (by norm_num)]
    rfl
  refine ⟨h1, ?_, h2, ?_⟩
  · intro hcon
    rw [h1] at hcon
    injection hcon with hcon
    injection hcon with hcon
    exact absurd hcon (by decide)
  · intro hcon
    rw [h2] at hcon
    injection hcon with hcon
    injection hcon with hcon
    exact absurd hcon (by decide)

/-- Claim C2 (amended): starting from the empty cart with no discount code,
adding quantity 2 of "Mouse Gaming Pro" (unit price 80, stock 15) and then
viewing the cart yields subtotal 160.00, shipping 0.00 (free, because the
pre-discount subtotal 160 meets the 100 threshold), tax 12.80, and total
172.80. -/
theorem mouse_scenario_actual :
    c2state.carrito.get_subtotal = 160
    ∧ c2state.carrito.get_shipping = 0
    ∧ c2state.carrito.get_tax = 64 / 5
    ∧ c2state.carrito.get_total = 864 / 5
    ∧ c2state.carrito.items =
        [mkCartItem ("MOU002") ("Mouse Gaming Pro") 80 2]
    ∧ c2state.carrito.discount_code = none
    ∧ dictGet (ver_carrito c2state).1 ("status") = some (PyVal.s ("success"))
    ∧ dictGetIn (ver_carrito c2state).1 ("calculos") ("subtotal") =
        some (PyVal.s ("$160.00"))
    ∧ dictGetIn (ver_carrito c2state).1 ("calculos") ("envio") =
        some (PyVal.s ("$0.00"))
    ∧ dictGetIn (ver_carrito c2state).1 ("calculos") ("impuestos") =
        some (PyVal.s ("$12.80"))
    ∧ dictGetIn (ver_carrito c2state).1 ("calculos") ("total") =
        some (PyVal.s ("$172.80")) := by
  have hsub : c2state.carrito.get_subtotal = 160 := by
    show (80 : ℚ) * ((2 : ℤ) : ℚ) + 0 = 160
    norm_num
  have hdisc : c2state.carrito.get_discount_amount = 0 := rfl
  have hship : c2state.carrito.get_shipping = 0 := by
    rw [Cart.get_shipping, hsub, SHIPPING_THRESHOLD]
    rw [if_pos (by norm_num)]
  have htax : c2state.carrito.get_tax = 64 / 5 := by
    rw [Cart.get_tax, hsub, hdisc, TAX_RATE]
    norm_num
  have htot : c2state.carrito.get_total = 864 / 5 := by
    rw [Cart.get_total, hsub, hdisc, htax, hship]
    norm_num
  have hv1 : dictGetIn (ver_carrito c2state).1 ("calculos") ("subtotal") =
      some (PyVal.s (format_price c2state.carrito.get_subtotal)) := rfl
  have hv2 : dictGetIn (ver_carrito c2state).1 ("calculos") ("envio") =
      some (PyVal.s (format_price c2state.carrito.get_shipping)) := rfl
  have hv3 : dictGetIn (ver_carrito c2state).1 ("calculos") ("impuestos") =
      some (PyVal.s (format_price c2state.carrito.get_tax)) := rfl
  have hv4 : dictGetIn (ver_carrito c2state).1 ("calculos") ("total") =
      some (PyVal.s (format_price c2state.carrito.get_total)) := rfl
  refine ⟨hsub, hship, htax, htot, rfl, rfl, rfl, ?_, ?_, ?_, ?_⟩
  · rw [hv1, hsub, format_price_intCast 160 16000 (by norm_num)]
    rfl
  · rw [hv2, hship, format_price_intCast 0 0 (by norm_num)]
    rfl
  · rw [hv3, htax, format_price_intCast (64 / 5) 1280 (by norm_num)]
    rfl
  · rw [hv4, htot, format_price_intCast (864 / 5) 17280 (by norm_num)]
    rfl

/-- Claim C10: `remover_del_carrito` never modifies the cart's discount code
(in any branch), so after removing even the last line the code remains set and
a product added afterwards is discounted without re-applying the code — even
though `aplicar_descuento` itself refuses an empty cart. -/
theorem remove_preserves_discount_code :
    (∀ (st : EState) (producto : String) (cantidad : Option ℤ),
      ((remover_del_carrito st producto cantidad).2).carrito.discount_code =
        st.carrito.discount_code)
    ∧ (let s1 := (agregar_al_carrito initState ("Mouse Gaming Pro") 2).2
       let s2 := (aplicar_descuento s1 ("WELCOME10")).2
       let s3 := (remover_del_carrito s2 ("Mouse Gaming Pro") none).2
       let s4 := (agregar_al_carrito s3 ("Mouse Gaming Pro") 1).2
       s3.carrito.items = []
       ∧ s3.carrito.discount_code = some ("WELCOME10")
       ∧ dictGet (aplicar_descuento s3 ("WELCOME10")).1 ("status") =
           some (PyVal.s ("error"))
       ∧ (aplicar_descuento s3 ("WELCOME10")).2 = s3
       ∧ s4.carrito.discount_code = some ("WELCOME10")
       ∧ s4.carrito.get_discount_amount = 8) := by
  constructor
  · intro st producto cantidad
    cases hf : find_product_fuzzy producto with
    | none => simp only [remover_del_carrito, hf]
    | some kp =>
      obtain ⟨k, p⟩ := kp
      cases hex : get_cart_item_by_product st.carrito.items p.id with
      | none => simp only [remover_del_carrito, hf, hex]
      | some item =>
        cases cantidad with
        | none => simp only [remover_del_carrito, hf, hex]
        | some c =>
          by_cases h1 : item.cantidad ≤ c
          · simp only [remover_del_carrito, hf, hex, if_pos h1]
          · by_cases h2 : 0 < c
            · simp only [remover_del_carrito, hf, hex, if_neg h1, if_pos h2]
            · simp only [remover_del_carrito, hf, hex, if_neg h1, if_neg h2]
  · refine ⟨rfl, rfl, rfl, rfl, rfl, ?_⟩
    have hd : ((agregar_al_carrito
        ((remover_del_carrito
          ((aplicar_descuento ((agregar_al_carrito initState
            ("Mouse Gaming Pro") 2).2) ("WELCOME10")).2)
          ("Mouse Gaming Pro") none).2)
        ("Mouse Gaming Pro") 1).2).carrito.get_discount_amount =
        ((80 : ℚ) * ((1 : ℤ) : ℚ) + 0) * (10 / 100) := rfl
    rw [hd]
    norm_num

/-- Claim C4: whenever the resolved product already has `cartQty` units in the
cart and the requested (positive) quantity would exceed stock, adding reports
a stock error whose payload carries the current stock, the quantity already in
cart, and the remaining available units `stock − already` — and the state
(lines, discount code, history) is returned completely unchanged. -/
theorem add_stock_error_spec (st : EState) (producto : String) (cantidad : ℤ)
    (k : String) (p : Product)
    (hq : 0 < cantidad)
    (hf : find_product_fuzzy producto = some (k, p))
    (hover : (p.stock : ℤ) < cartQty st.carrito.items p.id + cantidad) :
    dictGet (agregar_al_carrito st producto cantidad).1 ("status") =
      some (PyVal.s ("error"))
    ∧ dictGet (agregar_al_carrito st producto cantidad).1 ("stock_actual") =
      some (PyVal.z (p.stock : ℤ))
    ∧ dictGet (agregar_al_carrito st producto cantidad).1 ("en_carrito") =
      some (PyVal.z (cartQty st.carrito.items p.id))
    ∧ dictGet (agregar_al_carrito st producto cantidad).1 ("disponible") =
      some (PyVal.z ((p.stock : ℤ) - cartQty st.carrito.items p.id))
    ∧ (agregar_al_carrito st producto cantidad).2 = st := by
  cases hex : get_cart_item_by_product st.carrito.items p.id with
  | none =>
    simp only [cartQty, hex] at hover ⊢
    simp only [agregar_al_carrito, hf, hex, if_neg (not_le.mpr hq),
      if_pos hover]
    refine ⟨?_, ?_, ?_, ?_, ?_⟩ <;> trivial
  | some it =>
    simp only [cartQty, hex] at hover ⊢
    simp only [agregar_al_carrito, hf, hex, if_neg (not_le.mpr hq),
      if_pos hover]
    refine ⟨?_, ?_, ?_, ?_, ?_⟩ <;> trivial

/-- Witness for C4: a cart holding 2 mice, adding 14 more (stock 15) fails
with 13 available and leaves the state unchanged. -/
theorem add_stock_error_spec_witness :
    dictGet (agregar_al_carrito
        ⟨⟨[mkCartItem ("MOU002") ("Mouse Gaming Pro") 80 2], none⟩, []⟩
        ("mouse gaming pro") 14).1 ("disponible") = some (PyVal.z 13)
    ∧ (agregar_al_carrito
        ⟨⟨[mkCartItem ("MOU002") ("Mouse Gaming Pro") 80 2], none⟩, []⟩
        ("mouse gaming pro") 14).2 =
      ⟨⟨[mkCartItem ("MOU002") ("Mouse Gaming Pro") 80 2], none⟩, []⟩ := by
  have h := add_stock_error_spec
    ⟨⟨[mkCartItem ("MOU002") ("Mouse Gaming Pro") 80 2], none⟩, []⟩
    ("mouse gaming pro") 14 ("mouse gaming pro") prodMouse
    (by decide) rfl (by decide)
  exact ⟨h.2.2.2.1, h.2.2.2.2⟩

/-- Claim C6: `aplicar_descuento` fails when the cart has no lines, whatever
the code; otherwise it normalizes the code by trimming and uppercasing, fails
listing the valid codes when the normalized code is not in the table, and
otherwise sets the cart's discount code to the normalized code and returns the
computed discount amount and the new total. -/
theorem apply_discount_spec (st : EState) (codigo : String) :
    (st.carrito.items = [] →
      aplicar_descuento st codigo =
        (PyVal.dict [("status", PyVal.s ("error")),
          ("message", PyVal.s
            ("❌ El carrito está vacío. Agrega productos antes de aplicar descuentos."))],
         st))
    ∧ (st.carrito.items ≠ [] → codeRate (pyUpper (pyStrip codigo)) = none →
        dictGet (aplicar_descuento st codigo).1 ("status") =
          some (PyVal.s ("error"))
        ∧ dictGet (aplicar_descuento st codigo).1 ("codigos_disponibles") =
          some (PyVal.arr
            [PyVal.s ("WELCOME10"), PyVal.s ("SAVE20"), PyVal.s ("VIP30")])
        ∧ (aplicar_descuento st codigo).2 = st)
    ∧ (∀ rate, st.carrito.items ≠ [] →
        codeRate (pyUpper (pyStrip codigo)) = some rate →
        (aplicar_descuento st codigo).2 =
          { st with carrito :=
            { st.carrito with discount_code := some (pyUpper (pyStrip codigo)) } }
        ∧ dictGet (aplicar_descuento st codigo).1 ("status") =
          some (PyVal.s ("success"))
        ∧ dictGetIn (aplicar_descuento st codigo).1 ("descuento") ("monto") =
          some (PyVal.s (format_price (Cart.get_discount_amount
            { st.carrito with
                discount_code := some (pyUpper (pyStrip codigo)) })))
        ∧ dictGetIn (aplicar_descuento st codigo).1 ("descuento")
            ("total_con_descuento") =
          some (PyVal.s (format_price (Cart.get_total
            { st.carrito with
                discount_code := some (pyUpper (pyStrip codigo)) })))) := by
  refine ⟨?_, ?_, ?_⟩
  · intro he
    simp only [aplicar_descuento, he, List.isEmpty_nil, if_true]
  · intro hne hcode
    cases hi : st.carrito.items with
    | nil => exact absurd hi hne
    | cons a as =>
      simp only [aplicar_descuento, hi, List.isEmpty_cons, Bool.false_eq_true,
        if_false, hcode]
      refine ⟨?_, ?_, ?_⟩ <;> trivial
  · intro rate hne hcode
    cases hi : st.carrito.items with
    | nil => exact absurd hi hne
    | cons a as =>
      simp only [aplicar_descuento, hi, List.isEmpty_cons, Bool.false_eq_true,
        if_false, hcode]
      refine ⟨?_, ?_, ?_, ?_⟩ <;> trivial

/-- Witness for C6: applying `" welcome10 "` to a one-line cart normalizes the
code to `WELCOME10`, stores it, and succeeds. -/
theorem apply_discount_spec_witness :
    (aplicar_descuento
      ⟨⟨[mkCartItem ("MOU002") ("Mouse Gaming Pro") 80 2], none⟩, []⟩
      (" welcome10 ")).2 =
      ⟨⟨[mkCartItem ("MOU002") ("Mouse Gaming Pro") 80 2],
        some ("WELCOME10")⟩, []⟩
    ∧ dictGet (aplicar_descuento
        ⟨⟨[mkCartItem ("MOU002") ("Mouse Gaming Pro") 80 2], none⟩, []⟩
        (" welcome10 ")).1 ("status") = some (PyVal.s ("success")) := by
  have h := (apply_discount_spec
    ⟨⟨[mkCartItem ("MOU002") ("Mouse Gaming Pro") 80 2], none⟩, []⟩
    (" welcome10 ")).2.2 (10 / 100) (by simp) rfl
  exact ⟨h.1.trans rfl, h.2.1⟩

/-- Claim C8: on a non-empty cart, applying a valid discount code twice yields
the same state and the same structured result as applying it once — in
particular the same reported discount amount — and the resulting totals agree;
the second application still succeeds. -/
theorem discount_idempotent (st : EState) (codigo : String) (rate : ℚ)
    (hne : st.carrito.items ≠ [])
    (hr : codeRate (pyUpper (pyStrip codigo)) = some rate) :
    (aplicar_descuento (aplicar_descuento st codigo).2 codigo).2 =
      (aplicar_descuento st codigo).2
    ∧ (aplicar_descuento (aplicar_descuento st codigo).2 codigo).1 =
      (aplicar_descuento st codigo).1
    ∧ dictGet (aplicar_descuento st codigo).1 ("status") =
      some (PyVal.s ("success"))
    ∧ ((aplicar_descuento (aplicar_descuento st codigo).2
          codigo).2).carrito.get_total =
      ((aplicar_descuento st codigo).2).carrito.get_total := by
  cases hi : st.carrito.items with
  | nil => exact absurd hi hne
  | cons a as =>
    refine ⟨?_, ?_, ?_, ?_⟩ <;>
      (simp only [aplicar_descuento, hi, List.isEmpty_cons, Bool.false_eq_true,
        if_false, hr]
       try rfl)

/-- Witness for C8 at a concrete one-line cart and the code `SAVE20`. -/
theorem discount_idempotent_witness :
    (aplicar_descuento (aplicar_descuento
        ⟨⟨[mkCartItem ("MOU002") ("Mouse Gaming Pro") 80 2], none⟩, []⟩
        ("SAVE20")).2 ("SAVE20")).2 =
      (aplicar_descuento
        ⟨⟨[mkCartItem ("MOU002") ("Mouse Gaming Pro") 80 2], none⟩, []⟩
        ("SAVE20")).2
    ∧ (aplicar_descuento (aplicar_descuento
        ⟨⟨[mkCartItem ("MOU002") ("Mouse Gaming Pro") 80 2], none⟩, []⟩
        ("SAVE20")).2 ("SAVE20")).1 =
      (aplicar_descuento
        ⟨⟨[mkCartItem ("MOU002") ("Mouse Gaming Pro") 80 2], none⟩, []⟩
        ("SAVE20")).1 := by
  have h := discount_idempotent
    ⟨⟨[mkCartItem ("MOU002") ("Mouse Gaming Pro") 80 2], none⟩, []⟩
    ("SAVE20") (20 / 100) (by simp) rfl
  exact ⟨h.1, h.2.1⟩

/-- Claim C5: `remover_del_carrito` fails (error status, state unchanged) when
the query does not resolve or the resolved product is not in the cart; on a
cart line with positive quantity q it deletes the line entirely when the
quantity argument is omitted or at least q, decrements the line and recomputes
its subtotal as unit price × new quantity when 0 < quantity < q, and fails
with a validation error, leaving the state unchanged, when quantity ≤ 0. -/
theorem remove_spec (st : EState) (producto : String) (cantidad : Option ℤ) :
    (find_product_fuzzy producto = none →
      dictGet (remover_del_carrito st producto cantidad).1 ("status") =
        some (PyVal.s ("error"))
      ∧ (remover_del_carrito st producto cantidad).2 = st)
    ∧ (∀ k p, find_product_fuzzy producto = some (k, p) →
        get_cart_item_by_product st.carrito.items p.id = none →
        dictGet (remover_del_carrito st producto cantidad).1 ("status") =
          some (PyVal.s ("error"))
        ∧ (remover_del_carrito st producto cantidad).2 = st)
    ∧ (∀ k p item, find_product_fuzzy producto = some (k, p) →
        get_cart_item_by_product st.carrito.items p.id = some item →
        0 < item.cantidad →
        ((cantidad = none ∨ ∃ c, cantidad = some c ∧ item.cantidad ≤ c) →
          dictGet (remover_del_carrito st producto cantidad).1 ("status") =
            some (PyVal.s ("success"))
          ∧ dictGet (remover_del_carrito st producto cantidad).1
              ("cantidad_removida") = some (PyVal.z item.cantidad)
          ∧ (remover_del_carrito st producto cantidad).2 =
            { st with carrito := { st.carrito with
                items := removeFirstItem st.carrito.items p.id } })
        ∧ (∀ c, cantidad = some c → 0 < c → c < item.cantidad →
          dictGet (remover_del_carrito st producto cantidad).1 ("status") =
            some (PyVal.s ("success"))
          ∧ dictGet (remover_del_carrito st producto cantidad).1
              ("cantidad_restante") = some (PyVal.z (item.cantidad - c))
          ∧ (remover_del_carrito st producto cantidad).2 =
            { st with carrito := { st.carrito with
                items := updateFirstItem st.carrito.items p.id (fun it =>
                  { it with cantidad := it.cantidad - c,
                            subtotal := it.precio_unitario *
                              ((it.cantidad - c : ℤ) : ℚ) }) } })
        ∧ (∀ c, cantidad = some c → c ≤ 0 →
          dictGet (remover_del_carrito st producto cantidad).1 ("status") =
            some (PyVal.s ("error"))
          ∧ (remover_del_carrito st producto cantidad).2 = st)) := by
  refine ⟨?_, ?_, ?_⟩
  · intro hf
    simp only [remover_del_carrito, hf]
    refine ⟨?_, ?_⟩ <;> trivial
  · intro k p hf hex
    simp only [remover_del_carrito, hf, hex]
    refine ⟨?_, ?_⟩ <;> trivial
  · intro k p item hf hex hpos
    refine ⟨?_, ?_, ?_⟩
    · intro hc
      rcases hc with rfl | ⟨c, rfl, hge⟩
      · simp only [remover_del_carrito, hf, hex]
        refine ⟨?_, ?_, ?_⟩ <;> trivial
      · simp only [remover_del_carrito, hf, hex, if_pos hge]
        refine ⟨?_, ?_, ?_⟩ <;> trivial
    · intro c hceq h0 hlt
      subst hceq
      simp only [remover_del_carrito, hf, hex, if_neg (not_le.mpr hlt),
        if_pos h0]
      refine ⟨?_, ?_, ?_⟩ <;> trivial
    · intro c hceq hle
      subst hceq
      have hnotge : ¬ item.cantidad ≤ c := by omega
      simp only [remover_del_carrito, hf, hex, if_neg hnotge,
        if_neg (not_lt.mpr hle)]
      refine ⟨?_, ?_⟩ <;> trivial

/-- Witness for C5: partially removing 2 of 5 mice leaves 3 and succeeds. -/
theorem remove_spec_witness :
    dictGet (remover_del_carrito
        ⟨⟨[mkCartItem ("MOU002") ("Mouse Gaming Pro") 80 5], none⟩, []⟩
        ("Mouse Gaming Pro") (some 2)).1 ("cantidad_restante") =
      some (PyVal.z 3)
    ∧ dictGet (remover_del_carrito
        ⟨⟨[mkCartItem ("MOU002") ("Mouse Gaming Pro") 80 5], none⟩, []⟩
        ("Mouse Gaming Pro") (some 2)).1 ("status") =
      some (PyVal.s ("success")) := by
  have h := ((remove_spec
    ⟨⟨[mkCartItem ("MOU002") ("Mouse Gaming Pro") 80 5], none⟩, []⟩
    ("Mouse Gaming Pro") (some 2)).2.2 ("mouse gaming pro") prodMouse
    (mkCartItem ("MOU002") ("Mouse Gaming Pro") 80 5) rfl rfl
    (by decide)).2.1 2 rfl (by decide) (by decide)
  exact ⟨h.2.1, h.1⟩

-- -------------------------
-- Helper lemmas: status and message fields of each operation
-- -------------------------

theorem statusOk_buscar (st : EState) (n : String) :
    (∃ s, dictGet (buscar_producto_por_nombre st n).1 ("status") =
        some (PyVal.s s) ∧
      (s = "success" ∨ s = "error" ∨ s = "empty" ∨ s = "not_found"))
    ∧ (∃ m, dictGet (buscar_producto_por_nombre st n).1 ("message") =
        some (PyVal.s m)) := by
  cases hf : find_product_fuzzy n with
  | none =>
    simp only [buscar_producto_por_nombre, hf]
    exact ⟨⟨"not_found", rfl, by simp⟩, ⟨_, rfl⟩⟩
  | some kp =>
    simp only [buscar_producto_por_nombre, hf]
    exact ⟨⟨"success", rfl, by simp⟩, ⟨_, rfl⟩⟩

theorem statusOk_agregar (st : EState) (producto : String) (cantidad : ℤ) :
    (∃ s, dictGet (agregar_al_carrito st producto cantidad).1 ("status") =
        some (PyVal.s s) ∧
      (s = "success" ∨ s = "error" ∨ s = "empty" ∨ s = "not_found"))
    ∧ (∃ m, dictGet (agregar_al_carrito st producto cantidad).1 ("message") =
        some (PyVal.s m)) := by
  by_cases hq : cantidad ≤ 0
  · simp only [agregar_al_carrito, if_pos hq]
    exact ⟨⟨"error", rfl, by simp⟩, ⟨_, rfl⟩⟩
  · cases hf : find_product_fuzzy producto with
    | none =>
      simp only [agregar_al_carrito, if_neg hq, hf]
      exact ⟨⟨"error", rfl, by simp⟩, ⟨_, rfl⟩⟩
    | some kp =>
      obtain ⟨k, p⟩ := kp
      cases hex : get_cart_item_by_product st.carrito.items p.id with
      | none =>
        by_cases hov : (p.stock : ℤ) < 0 + cantidad
        · simp only [agregar_al_carrito, if_neg hq, hf, hex, if_pos hov]
          exact ⟨⟨"error", rfl, by simp⟩, ⟨_, rfl⟩⟩
        · simp only [agregar_al_carrito, if_neg hq, hf, hex, if_neg hov]
          exact ⟨⟨"success", rfl, by simp⟩, ⟨_, rfl⟩⟩
      | some it =>
        by_cases hov : (p.stock : ℤ) < it.cantidad + cantidad
        · simp only [agregar_al_carrito, if_neg hq, hf, hex, if_pos hov]
          exact ⟨⟨"error", rfl, by simp⟩, ⟨_, rfl⟩⟩
        · simp only [agregar_al_carrito, if_neg hq, hf, hex, if_neg hov]
          exact ⟨⟨"success", rfl, by simp⟩, ⟨_, rfl⟩⟩

theorem statusOk_ver (st : EState) :
    (∃ s, dictGet (ver_carrito st).1 ("status") = some (PyVal.s s) ∧
      (s = "success" ∨ s = "error" ∨ s = "empty" ∨ s = "not_found"))
    ∧ ((∃ m, dictGet (ver_carrito st).1 ("message") = some (PyVal.s m))
      ∨ dictGet (ver_carrito st).1 ("status") = some (PyVal.s ("success"))) := by
  cases hi : st.carrito.items with
  | nil =>
    simp only [ver_carrito, hi, List.isEmpty_nil, if_true]
    exact ⟨⟨"empty", rfl, by simp⟩, Or.inl ⟨_, rfl⟩⟩
  | cons a as =>
    simp only [ver_carrito, hi, List.isEmpty_cons, Bool.false_eq_true, if_false]
    exact ⟨⟨"success", rfl, by simp⟩, Or.inr rfl⟩

theorem statusOk_aplicar (st : EState) (codigo : String) :
    (∃ s, dictGet (aplicar_descuento st codigo).1 ("status") =
        some (PyVal.s s) ∧
      (s = "success" ∨ s = "error" ∨ s = "empty" ∨ s = "not_found"))
    ∧ (∃ m, dictGet (aplicar_descuento st codigo).1 ("message") =
        some (PyVal.s m)) := by
  cases hi : st.carrito.items with
  | nil =>
    simp only [aplicar_descuento, hi, List.isEmpty_nil, if_true]
    exact ⟨⟨"error", rfl, by simp⟩, ⟨_, rfl⟩⟩
  | cons a as =>
    cases hr : codeRate (pyUpper (pyStrip codigo)) with
    | none =>
      simp only [aplicar_descuento, hi, List.isEmpty_cons, Bool.false_eq_true,
        if_false, hr]
      exact ⟨⟨"error", rfl, by simp⟩, ⟨_, rfl⟩⟩
    | some rate =>
      simp only [aplicar_descuento, hi, List.isEmpty_cons, Bool.false_eq_true,
        if_false, hr]
      exact ⟨⟨"success", rfl, by simp⟩, ⟨_, rfl⟩⟩

theorem statusOk_remover (st : EState) (producto : String)
    (cantidad : Option ℤ) :
    (∃ s, dictGet (remover_del_carrito st producto cantidad).1 ("status") =
        some (PyVal.s s) ∧
      (s = "success" ∨ s = "error" ∨ s = "empty" ∨ s = "not_found"))
    ∧ (∃ m, dictGet (remover_del_carrito st producto cantidad).1 ("message") =
        some (PyVal.s m)) := by
  cases hf : find_product_fuzzy producto with
  | none =>
    simp only [remover_del_carrito, hf]
    exact ⟨⟨"error", rfl, by simp⟩, ⟨_, rfl⟩⟩
  | some kp =>
    obtain ⟨k, p⟩ := kp
    cases hex : get_cart_item_by_product st.carrito.items p.id with
    | none =>
      simp only [remover_del_carrito, hf, hex]
      exact ⟨⟨"error", rfl, by simp⟩, ⟨_, rfl⟩⟩
    | some item =>
      cases cantidad with
      | none =>
        simp only [remover_del_carrito, hf, hex]
        exact ⟨⟨"success", rfl, by simp⟩, ⟨_, rfl⟩⟩
      | some c =>
        by_cases h1 : item.cantidad ≤ c
        · simp only [remover_del_carrito, hf, hex, if_pos h1]
          exact ⟨⟨"success", rfl, by simp⟩, ⟨_, rfl⟩⟩
        · by_cases h2 : 0 < c
          · simp only [remover_del_carrito, hf, hex, if_neg h1, if_pos h2]
            exact ⟨⟨"success", rfl, by simp⟩, ⟨_, rfl⟩⟩
          · simp only [remover_del_carrito, hf, hex, if_neg h1, if_neg h2]
            exact ⟨⟨"error", rfl, by simp⟩, ⟨_, rfl⟩⟩

theorem statusOk_vaciar (st : EState) :
    (∃ s, dictGet (vaciar_carrito st).1 ("status") = some (PyVal.s s) ∧
      (s = "success" ∨ s = "error" ∨ s = "empty" ∨ s = "not_found"))
    ∧ (∃ m, dictGet (vaciar_carrito st).1 ("message") = some (PyVal.s m)) :=
  ⟨⟨"success", rfl, by simp⟩, ⟨_, rfl⟩⟩

theorem statusOk_calcular (st : EState) :
    (∃ s, dictGet (calcular_total st).1 ("status") = some (PyVal.s s) ∧
      (s = "success" ∨ s = "error" ∨ s = "empty" ∨ s = "not_found"))
    ∧ ((∃ m, dictGet (calcular_total st).1 ("message") = some (PyVal.s m))
      ∨ (∃ m, dictGet (calcular_total st).1 ("mensaje") = some (PyVal.s m))) := by
  cases hi : st.carrito.items with
  | nil =>
    simp only [calcular_total, hi, List.isEmpty_nil, if_true]
    exact ⟨⟨"empty", rfl, by simp⟩, Or.inl ⟨_, rfl⟩⟩
  | cons a as =>
    by_cases hd : 0 < st.carrito.get_discount_amount
    · by_cases hs : st.carrito.get_shipping = 0
      · simp only [calcular_total, hi, List.isEmpty_cons, Bool.false_eq_true,
          if_false, if_pos hd, if_pos hs, List.cons_append, List.isEmpty_cons]
        exact ⟨⟨"success", rfl, by simp⟩, Or.inr ⟨_, rfl⟩⟩
      · simp only [calcular_total, hi, List.isEmpty_cons, Bool.false_eq_true,
          if_false, if_pos hd, if_neg hs, List.cons_append, List.isEmpty_cons]
        exact ⟨⟨"success", rfl, by simp⟩, Or.inr ⟨_, rfl⟩⟩
    · by_cases hs : st.carrito.get_shipping = 0
      · simp only [calcular_total, hi, List.isEmpty_cons, Bool.false_eq_true,
          if_false, if_neg hd, if_pos hs, List.nil_append, List.isEmpty_cons]
        exact ⟨⟨"success", rfl, by simp⟩, Or.inr ⟨_, rfl⟩⟩
      · simp only [calcular_total, hi, List.isEmpty_cons, Bool.false_eq_true,
          if_false, if_neg hd, if_neg hs, List.nil_append, List.isEmpty_nil,
          if_true]
        exact ⟨⟨"success", rfl, by simp⟩, Or.inr ⟨_, rfl⟩⟩

theorem statusOk_recomendar (st : EState) (categoria : Option String) :
    (∃ s, dictGet (recomendar_productos st categoria).1 ("status") =
        some (PyVal.s s) ∧
      (s = "success" ∨ s = "error" ∨ s = "empty" ∨ s = "not_found"))
    ∧ ((∃ m, dictGet (recomendar_productos st categoria).1 ("message") =
        some (PyVal.s m))
      ∨ (∃ m, dictGet (recomendar_productos st categoria).1 ("mensaje") =
        some (PyVal.s m))) := by
  cases categoria with
  | none =>
    simp only [recomendar_productos, recomendacionesFor]
    exact ⟨⟨"success", rfl, by simp⟩, Or.inr ⟨_, rfl⟩⟩
  | some c =>
    by_cases hce : c.isEmpty
    · simp only [recomendar_productos, hce, if_true, recomendacionesFor]
      exact ⟨⟨"success", rfl, by simp⟩, Or.inr ⟨_, rfl⟩⟩
    · cases hemp : ((PRODUCTOS_DB.map (fun kv => kv.2)).filter
        (fun p => pyLower p.categoria == pyLower c)).isEmpty with
      | true =>
        simp only [recomendar_productos, hce, Bool.false_eq_true, if_false,
          hemp, if_true, recomendacionesFor]
        exact ⟨⟨"error", rfl, by simp⟩, Or.inl ⟨_, rfl⟩⟩
      | false =>
        simp only [recomendar_productos, hce, Bool.false_eq_true, if_false,
          hemp, recomendacionesFor]
        exact ⟨⟨"success", rfl, by simp⟩, Or.inr ⟨_, rfl⟩⟩

theorem statusOk_historial (st : EState) :
    (∃ s, dictGet (mostrar_historial_busquedas st).1 ("status") =
        some (PyVal.s s) ∧
      (s = "success" ∨ s = "error" ∨ s = "empty" ∨ s = "not_found"))
    ∧ ((∃ m, dictGet (mostrar_historial_busquedas st).1 ("message") =
        some (PyVal.s m))
      ∨ dictGet (mostrar_historial_busquedas st).1 ("status") =
        some (PyVal.s ("success"))) := by
  cases hh : st.historial with
  | nil =>
    simp only [mostrar_historial_busquedas, hh, List.isEmpty_nil, if_true]
    exact ⟨⟨"empty", rfl, by simp⟩, Or.inl ⟨_, rfl⟩⟩
  | cons a as =>
    simp only [mostrar_historial_busquedas, hh, List.isEmpty_cons,
      Bool.false_eq_true, if_false]
    exact ⟨⟨"success", rfl, by simp⟩, Or.inr rfl⟩

/-- Claim C9 (counterexample): with a non-empty search history, the success
result of `mostrar_historial_busquedas` carries a `status` field but no
human-readable message field at all (neither `message` nor `mensaje`), so not
every operation result contains a message field. -/
theorem result_message_counterexample :
    dictGet (mostrar_historial_busquedas ⟨⟨[], none⟩, ["mouse"]⟩).1 ("status") =
      some (PyVal.s ("success"))
    ∧ dictGet (mostrar_historial_busquedas ⟨⟨[], none⟩, ["mouse"]⟩).1
        ("message") = none
    ∧ dictGet (mostrar_historial_busquedas ⟨⟨[], none⟩, ["mouse"]⟩).1
        ("mensaje") = none :=
  ⟨rfl, rfl, rfl⟩

/-- Claim C9 (amended): every one of the nine operations, on every input and
state, returns a mapping whose `status` field is one of success, error, empty,
not_found; every result carries a human-readable message field — named
`message`, or `mensaje` in the success results of `recomendar_productos` and
`calcular_total` — except the success results of `ver_carrito` and
`mostrar_historial_busquedas`, which have none. -/
theorem result_status_spec (st : EState) (op : ToolOp) :
    (∃ s, dictGet (runOp st op).1 ("status") = some (PyVal.s s) ∧
      (s = "success" ∨ s = "error" ∨ s = "empty" ∨ s = "not_found"))
    ∧ ((∃ m, dictGet (runOp st op).1 ("message") = some (PyVal.s m))
      ∨ (∃ m, dictGet (runOp st op).1 ("mensaje") = some (PyVal.s m))
      ∨ ((op = ToolOp.ver ∨ op = ToolOp.historial) ∧
          dictGet (runOp st op).1 ("status") = some (PyVal.s ("success")))) := by
  cases op with
  | buscar n =>
    obtain ⟨h1, h2⟩ := statusOk_buscar st n
    exact ⟨h1, Or.inl h2⟩
  | agregar p c =>
    obtain ⟨h1, h2⟩ := statusOk_agregar st p c
    exact ⟨h1, Or.inl h2⟩
  | ver =>
    obtain ⟨h1, h2⟩ := statusOk_ver st
    refine ⟨h1, ?_⟩
    rcases h2 with h2 | h2
    · exact Or.inl h2
    · exact Or.inr (Or.inr ⟨Or.inl rfl, h2⟩)
  | aplicar c =>
    obtain ⟨h1, h2⟩ := statusOk_aplicar st c
    exact ⟨h1, Or.inl h2⟩
  | remover p c =>
    obtain ⟨h1, h2⟩ := statusOk_remover st p c
    exact ⟨h1, Or.inl h2⟩
  | vaciar =>
    obtain ⟨h1, h2⟩ := statusOk_vaciar st
    exact ⟨h1, Or.inl h2⟩
  | calcular =>
    obtain ⟨h1, h2⟩ := statusOk_calcular st
    rcases h2 with h2 | h2
    · exact ⟨h1, Or.inl h2⟩
    · exact ⟨h1, Or.inr (Or.inl h2)⟩
  | recomendar c =>
    obtain ⟨h1, h2⟩ := statusOk_recomendar st c
    rcases h2 with h2 | h2
    · exact ⟨h1, Or.inl h2⟩
    · exact ⟨h1, Or.inr (Or.inl h2)⟩
  | historial =>
    obtain ⟨h1, h2⟩ := statusOk_historial st
    refine ⟨h1, ?_⟩
    rcases h2 with h2 | h2
    · exact Or.inl h2
    · exact Or.inr (Or.inr ⟨Or.inr rfl, h2⟩)

/-- Witness for C9 (amended) at a concrete state and operation. -/
theorem result_status_spec_witness :
    (∃ s, dictGet (runOp initState (ToolOp.agregar ("mouse") 1)).1 ("status") =
        some (PyVal.s s) ∧
      (s = "success" ∨ s = "error" ∨ s = "empty" ∨ s = "not_found"))
    ∧ ((∃ m, dictGet (runOp initState (ToolOp.agregar ("mouse") 1)).1
          ("message") = some (PyVal.s m))
      ∨ (∃ m, dictGet (runOp initState (ToolOp.agregar ("mouse") 1)).1
          ("mensaje") = some (PyVal.s m))
      ∨ ((ToolOp.agregar ("mouse") 1 = ToolOp.ver ∨
          ToolOp.agregar ("mouse") 1 = ToolOp.historial) ∧
          dictGet (runOp initState (ToolOp.agregar ("mouse") 1)).1 ("status") =
            some (PyVal.s ("success")))) :=
  result_status_spec initState (ToolOp.agregar ("mouse") 1)

-- -------------------------
-- Helper lemmas: preservation of the cart invariant by each operation
-- -------------------------

theorem cartInv_initState : CartInv initState.carrito :=
  ⟨fun it hit => absurd hit (List.not_mem_nil it), List.nodup_nil⟩

theorem cartInv_agregar (st : EState) (producto : String) (cantidad : ℤ)
    (h : CartInv st.carrito) :
    CartInv ((agregar_al_carrito st producto cantidad).2).carrito := by
  by_cases hq : cantidad ≤ 0
  · simp only [agregar_al_carrito, if_pos hq]
    exact h
  · cases hf : find_product_fuzzy producto with
    | none =>
      simp only [agregar_al_carrito, if_neg hq, hf]
      exact h
    | some kp =>
      obtain ⟨k, p⟩ := kp
      have hmem := find_product_fuzzy_mem hf
      cases hex : get_cart_item_by_product st.carrito.items p.id with
      | none =>
        by_cases hov : (p.stock : ℤ) < 0 + cantidad
        · simp only [agregar_al_carrito, if_neg hq, hf, hex, if_pos hov]
          exact h
        · simp only [agregar_al_carrito, if_neg hq, hf, hex, if_neg hov]
          refine ⟨?_, ?_⟩
          · intro it hit
            rcases List.mem_append.mp hit with hit | hit
            · exact h.1 it hit
            · rw [List.mem_singleton.mp hit]
              refine ⟨by show (0 : ℤ) < cantidad; omega, rfl, ?_⟩
              intro kv hkv hkid
              have hstock : kv.2.stock = p.stock :=
                db_id_unique kv hkv (k, p) hmem hkid
              rw [show (mkCartItem p.id p.nombre p.precio cantidad).cantidad
                = cantidad from rfl, hstock]
              omega
          · rw [List.map_append]
            refine List.Nodup.append h.2 (by simp) ?_
            intro a ha1 ha2
            rw [List.mem_singleton.mp ha2] at ha1
            obtain ⟨it, hit, hid⟩ := List.mem_map.mp ha1
            exact find?_cart_none hex it hit hid
      | some it0 =>
        by_cases hov : (p.stock : ℤ) < it0.cantidad + cantidad
        · simp only [agregar_al_carrito, if_neg hq, hf, hex, if_pos hov]
          exact h
        · simp only [agregar_al_carrito, if_neg hq, hf, hex, if_neg hov]
          have hfind := find?_cart_id hex
          refine ⟨?_, ?_⟩
          · refine forall_updateFirstItem h.1 ?_
            intro it2 hit2
            rw [hex] at hit2
            injection hit2 with hit2
            subst hit2
            refine ⟨?_, rfl, ?_⟩
            · have hp := (h.1 it0 hfind.1).1
              show (0 : ℤ) < it0.cantidad + cantidad
              omega
            · intro kv hkv hkid
              have hid2 : kv.2.id = p.id := by
                simpa [hfind.2] using hkid
              have hstock : kv.2.stock = p.stock :=
                db_id_unique kv hkv (k, p) hmem hid2
              show it0.cantidad + cantidad ≤ (kv.2.stock : ℤ)
              rw [hstock]
              omega
          · have hm := updateFirstItem_map_id st.carrito.items p.id (fun it => { it with cantidad := it.cantidad + cantidad, subtotal := it.precio_unitario * ((it.cantidad + cantidad : ℤ) : ℚ) }) (fun it => rfl)
            show (List.map (fun it => it.producto_id) (updateFirstItem st.carrito.items p.id (fun it => { it with cantidad := it.cantidad + cantidad, subtotal := it.precio_unitario * ((it.cantidad + cantidad : ℤ) : ℚ) }))).Nodup
            rw [hm]
            exact h.2

theorem cartInv_remover (st : EState) (producto : String)
    (cantidad : Option ℤ) (h : CartInv st.carrito) :
    CartInv ((remover_del_carrito st producto cantidad).2).carrito := by
  cases hf : find_product_fuzzy producto with
  | none =>
    simp only [remover_del_carrito, hf]
    exact h
  | some kp =>
    obtain ⟨k, p⟩ := kp
    cases hex : get_cart_item_by_product st.carrito.items p.id with
    | none =>
      simp only [remover_del_carrito, hf, hex]
      exact h
    | some item =>
      have hfind := find?_cart_id hex
      have hrem : CartInv (Cart.mk (removeFirstItem st.carrito.items p.id)
          st.carrito.discount_code) := by
        refine ⟨?_, ?_⟩
        · intro it hit
          exact h.1 it ((removeFirstItem_sublist _ _).subset hit)
        · exact h.2.sublist
            ((removeFirstItem_sublist _ _).map (fun it => it.producto_id))
      cases cantidad with
      | none =>
        simp only [remover_del_carrito, hf, hex]
        exact hrem
      | some c =>
        by_cases h1 : item.cantidad ≤ c
        · simp only [remover_del_carrito, hf, hex, if_pos h1]
          exact hrem
        · by_cases h2 : 0 < c
          · simp only [remover_del_carrito, hf, hex, if_neg h1, if_pos h2]
            refine ⟨?_, ?_⟩
            · refine forall_updateFirstItem h.1 ?_
              intro it2 hit2
              rw [hex] at hit2
              injection hit2 with hit2
              subst hit2
              refine ⟨?_, rfl, ?_⟩
              · show (0 : ℤ) < item.cantidad - c
                omega
              · intro kv hkv hkid
                have hb := (h.1 item hfind.1).2.2 kv hkv (by simpa using hkid)
                show item.cantidad - c ≤ (kv.2.stock : ℤ)
                omega
            · have hm := updateFirstItem_map_id st.carrito.items p.id (fun it => { it with cantidad := it.cantidad - c, subtotal := it.precio_unitario * ((it.cantidad - c : ℤ) : ℚ) }) (fun it => rfl)
              show (List.map (fun it => it.producto_id) (updateFirstItem st.carrito.items p.id (fun it => { it with cantidad := it.cantidad - c, subtotal := it.precio_unitario * ((it.cantidad - c : ℤ) : ℚ) }))).Nodup
              rw [hm]
              exact h.2
          · simp only [remover_del_carrito, hf, hex, if_neg h1, if_neg h2]
            exact h

theorem cartInv_applyOp (st : EState) (op : ToolOp)
    (h : CartInv st.carrito) : CartInv ((applyOp st op).carrito) := by
  cases op with
  | buscar n =>
    show CartInv ((buscar_producto_por_nombre st n).2).carrito
    cases hf : find_product_fuzzy n with
    | none => simp only [buscar_producto_por_nombre, hf]; exact h
    | some kp => simp only [buscar_producto_por_nombre, hf]; exact h
  | agregar p c => exact cartInv_agregar st p c h
  | ver =>
    show CartInv ((ver_carrito st).2).carrito
    cases hi : st.carrito.items with
    | nil => simp only [ver_carrito, hi, List.isEmpty_nil, if_true]; exact h
    | cons a as =>
      simp only [ver_carrito, hi, List.isEmpty_cons, Bool.false_eq_true,
        if_false]
      exact h
  | aplicar c =>
    show CartInv ((aplicar_descuento st c).2).carrito
    cases hi : st.carrito.items with
    | nil =>
      simp only [aplicar_descuento, hi, List.isEmpty_nil, if_true]
      exact h
    | cons a as =>
      cases hr : codeRate (pyUpper (pyStrip c)) with
      | none =>
        simp only [aplicar_descuento, hi, List.isEmpty_cons,
          Bool.false_eq_true, if_false, hr]
        exact h
      | some rate =>
        simp only [aplicar_descuento, hi, List.isEmpty_cons,
          Bool.false_eq_true, if_false, hr]
        exact ⟨hi ▸ h.1, hi ▸ h.2⟩
  | remover p c => exact cartInv_remover st p c h
  | vaciar =>
    exact ⟨fun it hit => absurd hit (List.not_mem_nil it), List.nodup_nil⟩
  | calcular =>
    show CartInv ((calcular_total st).2).carrito
    cases hi : st.carrito.items with
    | nil =>
      simp only [calcular_total, hi, List.isEmpty_nil, if_true]
      exact h
    | cons a as =>
      simp only [calcular_total, hi, List.isEmpty_cons, Bool.false_eq_true,
        if_false]
      exact h
  | recomendar c =>
    show CartInv ((recomendar_productos st c).2).carrito
    cases c with
    | none => exact h
    | some cat =>
      by_cases hce : cat.isEmpty
      · simp only [recomendar_productos, hce, if_true]
        exact h
      · cases hemp : ((PRODUCTOS_DB.map (fun kv => kv.2)).filter
          (fun p => pyLower p.categoria == pyLower cat)).isEmpty with
        | true =>
          simp only [recomendar_productos, hce, Bool.false_eq_true, if_false,
            hemp, if_true]
          exact h
        | false =>
          simp only [recomendar_productos, hce, Bool.false_eq_true, if_false,
            hemp]
          exact h
  | historial =>
    show CartInv ((mostrar_historial_busquedas st).2).carrito
    cases hh : st.historial with
    | nil =>
      simp only [mostrar_historial_busquedas, hh, List.isEmpty_nil, if_true]
      exact h
    | cons a as =>
      simp only [mostrar_historial_busquedas, hh, List.isEmpty_cons,
        Bool.false_eq_true, if_false]
      exact h

/-- Claim C7: every cart state reachable by any sequence of the nine
operations from the initial empty state satisfies the invariant: every line
has positive quantity, no two lines share a product identifier, every line's
stored subtotal equals unit price × quantity, and no line quantity exceeds the
stock of the catalog product bearing its identifier. -/
theorem reachable_cart_invariant (ops : List ToolOp) :
    CartInv ((ops.foldl applyOp initState).carrito) := by
  suffices hstep : ∀ st, CartInv st.carrito →
      CartInv ((ops.foldl applyOp st).carrito) from
    hstep initState cartInv_initState
  induction ops with
  | nil => intro st h; exact h
  | cons op rest ih =>
    intro st h
    rw [List.foldl_cons]
    exact ih _ (cartInv_applyOp st op h)

/-- Witness for C7 at a concrete operation sequence. -/
theorem reachable_cart_invariant_witness :
    CartInv (([ToolOp.agregar ("mouse gaming pro") 2,
      ToolOp.aplicar ("WELCOME10"),
      ToolOp.remover ("mouse gaming pro") (some 1)].foldl
        applyOp initState).carrito) :=
  reachable_cart_invariant
    [ToolOp.agregar ("mouse gaming pro") 2, ToolOp.aplicar ("WELCOME10"),
     ToolOp.remover ("mouse gaming pro") (some 1)]

-- -------------------------
-- Helper lemmas: evaluating concrete similarities
-- -------------------------

set_option maxRecDepth 100000

theorem similarity_eval (x w : String) (m la lb : ℕ) (v : ℚ)
    (hla : x.data.length = la) (hlb : w.data.length = lb)
    (hm : matchTotal x.data w.data (bJunk w.data)
      (x.data.length + w.data.length + 1) 0 x.data.length 0 w.data.length = m)
    (hnz : ¬ (la + lb = 0))
    (hv : (2 : ℚ) * (m : ℚ) / ((la : ℚ) + (lb : ℚ)) = v) :
    similarity x w = v := by
  simp only [similarity]
  rw [hm, hla, hlb, if_neg hnz]
  exact hv

/-- Claim C3 (counterexample): on the query `"gam pro"` the keys
`"laptop gamer pro"` and `"mouse gaming pro"` tie at ratio 14/23 ≥ 0.6 (all
other keys fall below the cutoff), `"laptop gamer pro"` comes first in catalog
iteration order, yet the resolver returns `"mouse gaming pro"`:
`difflib.get_close_matches` breaks score ties towards the lexicographically
greatest key, not the first one in catalog order. -/
theorem fuzzy_tiebreak_counterexample :
    find_product_fuzzy ("gam pro") = some ("mouse gaming pro", prodMouse)
    ∧ similarity ("laptop gamer pro") ("gam pro") = 14 / 23
    ∧ similarity ("mouse gaming pro") ("gam pro") = 14 / 23
    ∧ (3 / 5 : ℚ) ≤ 14 / 23
    ∧ similarity ("teclado mecanico rgb") ("gam pro") = 4 / 27
    ∧ similarity ("monitor 4k hdr") ("gam pro") = 4 / 21
    ∧ similarity ("auriculares 7.1") ("gam pro") = 2 / 11
    ∧ (4 / 27 : ℚ) < 3 / 5 ∧ (4 / 21 : ℚ) < 3 / 5 ∧ (2 / 11 : ℚ) < 3 / 5
    ∧ dbKeys.indexOf ("laptop gamer pro") = 0
    ∧ dbKeys.indexOf ("mouse gaming pro") = 3 := by
  have h1 : similarity ("laptop gamer pro") ("gam pro") = 14 / 23 :=
    similarity_eval _ _ 7 16 7 _ (by decide) (by decide) (by decide)
      (by decide) (by norm_num)
  have h2 : similarity ("teclado mecanico rgb") ("gam pro") = 4 / 27 :=
    similarity_eval _ _ 2 20 7 _ (by decide) (by decide) (by decide)
      (by decide) (by norm_num)
  have h3 : similarity ("monitor 4k hdr") ("gam pro") = 4 / 21 :=
    similarity_eval _ _ 2 14 7 _ (by decide) (by decide) (by decide)
      (by decide) (by norm_num)
  have h4 : similarity ("mouse gaming pro") ("gam pro") = 14 / 23 :=
    similarity_eval _ _ 7 16 7 _ (by decide) (by decide) (by decide)
      (by decide) (by norm_num)
  have h5 : similarity ("auriculares 7.1") ("gam pro") = 2 / 11 :=
    similarity_eval _ _ 2 15 7 _ (by decide) (by decide) (by decide)
      (by decide) (by norm_num)
  have hb1 : decide ((3 / 5 : ℚ) ≤ 14 / 23) = true :=
    decide_eq_true (by norm_num)
  have hb2 : decide ((3 / 5 : ℚ) ≤ 4 / 27) = false :=
    decide_eq_false (by norm_num)
  have hb3 : decide ((3 / 5 : ℚ) ≤ 4 / 21) = false :=
    decide_eq_false (by norm_num)
  have hb5 : decide ((3 / 5 : ℚ) ≤ 2 / 11) = false :=
    decide_eq_false (by norm_num)
  have hnorm : pyNormalize ("gam pro") = "gam pro" := rfl
  have hfilter : dbKeys.filter
      (fun x => decide ((3 / 5 : ℚ) ≤ similarity x ("gam pro"))) =
      ["laptop gamer pro", "mouse gaming pro"] := by
    show List.filter _ ["laptop gamer pro", "teclado mecanico rgb",
      "monitor 4k hdr", "mouse gaming pro", "auriculares 7.1"] = _
    simp only [List.filter, h1, h2, h3, h4, h5, hb1, hb2, hb3, hb5]
  have hgtb : pairGtb ("gam pro") ("mouse gaming pro")
      ("laptop gamer pro") = true := by
    simp only [pairGtb, h1, h4]
    rw [decide_eq_false (by norm_num : ¬ ((14 / 23 : ℚ) < 14 / 23))]
    decide
  have hgcm : getCloseMatches1 ("gam pro") dbKeys (3 / 5) =
      some ("mouse gaming pro") := by
    simp only [getCloseMatches1, hfilter, pickBest, List.foldl, hgtb, if_true]
  have hfind : find_product_fuzzy ("gam pro") =
      some ("mouse gaming pro", prodMouse) := by
    simp only [find_product_fuzzy, hnorm, hgcm]
    rfl
  exact ⟨hfind, h1, h4, by norm_num, h2, h3, h5, by norm_num, by norm_num,
    by norm_num, rfl, rfl⟩

/-- Claim C3 (amended): for every query string, the resolver first normalizes
it (trim, lowercase); if the normalized query equals a catalog key it returns
that entry; otherwise it returns the single catalog key with the highest
ratio-based similarity to the normalized query provided that similarity is
≥ 0.6, breaking ratio ties in favour of the lexicographically greatest key
(Python string order, as compared by `heapq.nlargest` on `(score, key)`
pairs) — not the first best match in catalog iteration order; if no key
reaches 0.6 similarity it reports not-found. -/
theorem fuzzy_resolver_spec (nombre : String) :
    (∀ p, dbLookup (pyNormalize nombre) = some p →
      find_product_fuzzy nombre = some (pyNormalize nombre, p))
    ∧ (dbLookup (pyNormalize nombre) = none →
        (∀ k p, find_product_fuzzy nombre = some (k, p) →
          k ∈ dbKeys ∧ dbLookup k = some p ∧
          (3 / 5 : ℚ) ≤ similarity k (pyNormalize nombre) ∧
          ∀ k2 ∈ dbKeys, k2 ≠ k →
            similarity k2 (pyNormalize nombre) <
              similarity k (pyNormalize nombre) ∨
            (similarity k2 (pyNormalize nombre) =
              similarity k (pyNormalize nombre) ∧
              strLtb k2.data k.data = true))
        ∧ (find_product_fuzzy nombre = none ↔
            ∀ k ∈ dbKeys, similarity k (pyNormalize nombre) < 3 / 5)) := by
  refine ⟨?_, ?_⟩
  · intro p hp
    simp only [find_product_fuzzy, hp]
  · intro hnone
    cases hg : getCloseMatches1 (pyNormalize nombre) dbKeys (3 / 5) with
    | none =>
      have hall := (gcm_eq_none_iff (pyNormalize nombre) dbKeys (3 / 5)).mp hg
      refine ⟨?_, ?_⟩
      · intro k p hk
        simp only [find_product_fuzzy, hnone, hg] at hk
        cases hk
      · apply iff_of_true
        · simp only [find_product_fuzzy, hnone, hg]
        · exact hall
    | some m =>
      obtain ⟨hmemk, hcut, hmax⟩ :=
        gcm_eq_some (pyNormalize nombre) dbKeys (3 / 5) m hg
      obtain ⟨pm, hpm⟩ := dbKeys_lookup hmemk
      have hfp : find_product_fuzzy nombre = some (m, pm) := by
        simp only [find_product_fuzzy, hnone, hg, hpm]
      refine ⟨?_, ?_⟩
      · intro k p hk
        rw [hfp] at hk
        injection hk with hk
        injection hk with hk1 hk2
        subst hk1
        subst hk2
        refine ⟨hmemk, hpm, hcut, ?_⟩
        intro k2 hk2m hne
        by_cases hc2 : (3 / 5 : ℚ) ≤ similarity k2 (pyNormalize nombre)
        · rcases hmax k2 hk2m hc2 with hlt | ⟨heq, hor⟩
          · exact Or.inl hlt
          · rcases hor with rfl | hs
            · exact absurd rfl hne
            · exact Or.inr ⟨heq, hs⟩
        · exact Or.inl (lt_of_lt_of_le (not_le.mp hc2) hcut)
      · apply iff_of_false
        · rw [hfp]
          simp
        · intro hall
          exact absurd hcut (not_le.mpr (hall m hmemk))

/-- Witness for C3 (amended): an exact-match query resolves to its entry. -/
theorem fuzzy_resolver_spec_witness :
    find_product_fuzzy ("Mouse Gaming Pro") =
      some ("mouse gaming pro", prodMouse) :=
  (fuzzy_resolver_spec ("Mouse Gaming Pro")).1 prodMouse rfl
